import Mathlib

/-!
Shallow embedding of the fgo-sheba battle decision engine (Rust) and proofs
about its specification claims.

Modelling conventions:
- Rust f32 values are modelled by `F32`: either an exact rational or an
  invalid value (NaN).  Finite-precision rounding is idealised away; NaN
  propagation and NaN comparison semantics follow Rust f32.
- Rust code that can panic (index out of bounds, Option::unwrap on a failed
  partial comparison) is modelled in the Option monad: `none` means the
  function does not return normally.
- Fixed-size Rust arrays are tuples; Vec is List; u32/usize are Nat; i32/i64
  are Int with explicit reduction mod a power of two where the code masks.
-/

set_option maxRecDepth 4000

/-- Model of a Rust f32 number: an invalid value (NaN) or an exact rational. -/
inductive F32 where
  | nan : F32
  | val (q : ℚ) : F32
deriving DecidableEq, Repr

instance : Inhabited F32 := ⟨F32.val 0⟩

/-- f32 addition: NaN propagates. -/
def F32.add : F32 → F32 → F32
  | .nan, _ => .nan
  | _, .nan => .nan
  | .val a, .val b => .val (a + b)

/-- f32 subtraction: NaN propagates. -/
def F32.sub : F32 → F32 → F32
  | .nan, _ => .nan
  | _, .nan => .nan
  | .val a, .val b => .val (a - b)

/-- f32 multiplication: NaN propagates. -/
def F32.mul : F32 → F32 → F32
  | .nan, _ => .nan
  | _, .nan => .nan
  | .val a, .val b => .val (a * b)

/-- Rust PartialOrd::partial_cmp on f32: none when either side is NaN. -/
def F32.partialCmp : F32 → F32 → Option Ordering
  | .nan, _ => none
  | _, .nan => none
  | .val a, .val b => some (if a < b then .lt else if a = b then .eq else .gt)

/-- Rust `>` on f32: false whenever either side is NaN. -/
def F32.gt : F32 → F32 → Bool
  | .val a, .val b => decide (b < a)
  | _, _ => false

/-- Insert into a sorted list using a fallible comparator; `none` models a
panic of the comparator (partial_cmp(..).unwrap() on an unordered pair).
An element is placed before the first element it does not compare
greater-than, which keeps the sort stable. -/
def insertByCmp (cmp : α → α → Option Ordering) (x : α) : List α → Option (List α)
  | [] => some [x]
  | y :: ys =>
    match cmp x y with
    | none => none
    | some Ordering.gt => (insertByCmp cmp x ys).map (fun zs => y :: zs)
    | some _ => some (x :: y :: ys)

/-- Stable sort with a fallible comparator, modelling Rust slice::sort_by with
a comparator built from partial_cmp(..).unwrap().  On inputs where every
needed comparison is defined the output of any stable sort is unique, so this
agrees with Rust's stable sort; a `none` result models the comparator panic
that sorting an unordered (NaN-scored) pair triggers. -/
def sortByCmp (cmp : α → α → Option Ordering) : List α → Option (List α)
  | [] => some []
  | x :: xs =>
    match sortByCmp cmp xs with
    | none => none
    | some ys => insertByCmp cmp x ys

/-- Rust Iterator::filter where evaluating the predicate may panic (`none`). -/
def filterPanic (p : α → Option Bool) : List α → Option (List α)
  | [] => some []
  | x :: xs =>
    match p x with
    | none => none
    | some b => (filterPanic p xs).map (fun ys => if b then x :: ys else ys)

/-- Card type of a command card (src/game/cards.rs). -/
inductive CardType where
  | Buster
  | Arts
  | Quick
  | NP
  | Unknown
deriving DecidableEq, Repr, Inhabited, BEq

/-- A command card in battle (src/game/cards.rs). -/
structure Card where
  card_type : CardType
  servant_idx : Nat
  position : Nat
  confidence : F32
deriving DecidableEq, Repr, Inhabited

/-- Card::new: confidence defaults to 1.0. -/
def Card.new (card_type : CardType) (servant_idx position : Nat) : Card :=
  { card_type := card_type, servant_idx := servant_idx, position := position,
    confidence := F32.val 1 }

/-- Type of a card chain (src/game/cards.rs). -/
inductive ChainType where
  | Buster
  | Arts
  | Quick
  | Brave
  | None
deriving DecidableEq, Repr, Inhabited

/-- Chain::detect_chain_type: same-type chain over the non-NP card types,
requiring exactly 3 non-NP cards. -/
def Chain.detect_chain_type (c0 c1 c2 : Card) : ChainType :=
  let non_np_types :=
    [c0.card_type, c1.card_type, c2.card_type].filter (fun t => !(t == CardType.NP))
  if non_np_types.length == 3
      && non_np_types.all (fun t => t == non_np_types.headD CardType.Unknown) then
    match non_np_types.headD CardType.Unknown with
    | CardType.Buster => ChainType.Buster
    | CardType.Arts => ChainType.Arts
    | CardType.Quick => ChainType.Quick
    | _ => ChainType.None
  else ChainType.None

/-- Chain::detect_brave_chain: all three cards owned by cards[0]'s servant. -/
def Chain.detect_brave_chain (c0 c1 c2 : Card) : Bool :=
  c0.servant_idx == c0.servant_idx
    && c1.servant_idx == c0.servant_idx
    && c2.servant_idx == c0.servant_idx

/-- A chain of three cards (src/game/cards.rs); the cards array [Card; 3] is a
triple. -/
structure Chain where
  cards : Card × Card × Card
  chain_type : ChainType
  is_brave : Bool
deriving DecidableEq, Repr

/-- The three cards of a chain as a list, for iteration. -/
def Chain.cardList (c : Chain) : List Card :=
  [c.cards.1, c.cards.2.1, c.cards.2.2]

/-- Chain::new. -/
def Chain.new (c0 c1 c2 : Card) : Chain :=
  { cards := (c0, c1, c2),
    chain_type := Chain.detect_chain_type c0 c1 c2,
    is_brave := Chain.detect_brave_chain c0 c1 c2 }

/-- calculate_possible_chains: every ordered selection of 3 distinct positions
among the available cards; empty when fewer than 3 cards exist. -/
def calculate_possible_chains (cards : List Card) : List Chain :=
  let n := cards.length
  if n < 3 then []
  else
    (List.range n).flatMap (fun i =>
      (List.range n).flatMap (fun j =>
        if j == i then []
        else (List.range n).filterMap (fun k =>
          if k == i || k == j then none
          else some (Chain.new (cards.getD i default) (cards.getD j default)
            (cards.getD k default)))))

/-- Enemy class (src/game/enemy.rs). -/
inductive EnemyClass where
  | Saber | Archer | Lancer | Rider | Caster | Assassin | Berserker
  | Ruler | Avenger | MoonCancer | AlterEgo | Foreigner | Pretender
  | Beast | Shielder | Knight | Cavalry | Unknown
deriving DecidableEq, Repr, Inhabited

/-- Servant class (src/game/servant.rs). -/
inductive ServantClass where
  | Saber | Archer | Lancer | Rider | Caster | Assassin | Berserker
  | Ruler | Avenger | MoonCancer | AlterEgo | Foreigner | Pretender
  | Beast | Shielder | Unknown
deriving DecidableEq, Repr, Inhabited

/-- ServantClass::advantage_against class-advantage table. -/
def ServantClass.advantage_against (s : ServantClass) (enemy : EnemyClass) : ℚ :=
  match s, enemy with
  | .Saber, .Lancer => 2
  | .Saber, .Archer => 1/2
  | .Archer, .Saber => 2
  | .Archer, .Lancer => 1/2
  | .Lancer, .Archer => 2
  | .Lancer, .Saber => 1/2
  | .Rider, .Caster => 2
  | .Rider, .Assassin => 1/2
  | .Caster, .Assassin => 2
  | .Caster, .Rider => 1/2
  | .Assassin, .Rider => 2
  | .Assassin, .Caster => 1/2
  | .Berserker, _ => 3/2
  | .Ruler, .MoonCancer => 2
  | .Ruler, .Avenger => 1/2
  | .Avenger, .Ruler => 2
  | .MoonCancer, .Avenger => 2
  | .MoonCancer, .Ruler => 1/2
  | .AlterEgo, .Cavalry => 3/2
  | .AlterEgo, .Foreigner => 2
  | .Foreigner, .Foreigner => 2
  | .Foreigner, .Berserker => 2
  | .Pretender, .Knight => 3/2
  | _, _ => 1

/-- Enemy threat level (src/game/enemy.rs). -/
inductive ThreatLevel where
  | Low
  | Medium
  | High
  | Critical
deriving DecidableEq, Repr, Inhabited

/-- An enemy in battle (src/game/enemy.rs); the screen_bounds field is
omitted because no decision function reads it. -/
structure Enemy where
  name : Option String
  cls : EnemyClass
  hp_percent : F32
  break_bars : Nat
  max_break_bars : Nat
  position : Nat
  is_alive : Bool
  is_boss : Bool
  has_dangerous_np : Bool
  buff_count : Nat
deriving DecidableEq, Repr

/-- Default for Enemy. -/
def Enemy.default : Enemy :=
  { name := none, cls := EnemyClass.Unknown, hp_percent := F32.val 1,
    break_bars := 0, max_break_bars := 0, position := 0, is_alive := true,
    is_boss := false, has_dangerous_np := false, buff_count := 0 }

instance : Inhabited Enemy := ⟨Enemy.default⟩

/-- Enemy::threat_level. -/
def Enemy.threat_level (e : Enemy) : ThreatLevel :=
  if e.is_boss && e.has_dangerous_np then ThreatLevel.Critical
  else if e.is_boss || e.has_dangerous_np then ThreatLevel.High
  else if e.break_bars > 0 then ThreatLevel.Medium
  else ThreatLevel.Low

/-- Enemy::has_break_bars. -/
def Enemy.has_break_bars (e : Enemy) : Bool :=
  e.break_bars > 0

/-- Enemy group in a battle wave (src/game/enemy.rs). -/
structure EnemyWave where
  enemies : List Enemy
  wave_number : Nat
  total_waves : Nat
deriving DecidableEq, Repr

/-- EnemyWave::new. -/
def EnemyWave.new (wave_number total_waves : Nat) : EnemyWave :=
  { enemies := [], wave_number := wave_number, total_waves := total_waves }

/-- EnemyWave::alive_enemies (as a list rather than an iterator). -/
def EnemyWave.alive_enemies (w : EnemyWave) : List Enemy :=
  w.enemies.filter (fun e => e.is_alive)

/-- EnemyWave::alive_count. -/
def EnemyWave.alive_count (w : EnemyWave) : Nat :=
  w.alive_enemies.length

/-- EnemyWave::is_final_wave. -/
def EnemyWave.is_final_wave (w : EnemyWave) : Bool :=
  w.wave_number == w.total_waves

/-- A servant skill (src/game/servant.rs). -/
structure Skill where
  name : Option String
  cooldown : Nat
  max_cooldown : Nat
  requires_target : Bool
  is_damage_buff : Bool
  is_np_charge : Bool
  np_charge_amount : Nat
deriving DecidableEq, Repr

/-- Default for Skill. -/
def Skill.default : Skill :=
  { name := none, cooldown := 0, max_cooldown := 6, requires_target := false,
    is_damage_buff := false, is_np_charge := false, np_charge_amount := 0 }

instance : Inhabited Skill := ⟨Skill.default⟩

/-- Skill::is_ready. -/
def Skill.is_ready (s : Skill) : Bool :=
  s.cooldown == 0

/-- NP card type (src/game/servant.rs). -/
inductive NPType where
  | Buster
  | Arts
  | Quick
deriving DecidableEq, Repr, Inhabited, BEq

/-- A servant in battle (src/game/servant.rs); the skills array [Skill; 3]
is a triple-length list in well-formed states. -/
structure Servant where
  id : Option Nat
  name : Option String
  cls : ServantClass
  hp_percent : F32
  np_gauge : Nat
  skills : List Skill
  np_type : NPType
  position : Nat
  is_alive : Bool
  buff_count : Nat
  debuff_count : Nat
deriving DecidableEq, Repr

/-- Default for Servant. -/
def Servant.default : Servant :=
  { id := none, name := none, cls := ServantClass.Unknown,
    hp_percent := F32.val 1, np_gauge := 0,
    skills := [Skill.default, Skill.default, Skill.default],
    np_type := NPType.Buster, position := 0, is_alive := true,
    buff_count := 0, debuff_count := 0 }

instance : Inhabited Servant := ⟨Servant.default⟩

/-- Servant::can_np. -/
def Servant.can_np (s : Servant) : Bool :=
  decide (100 ≤ s.np_gauge) && s.is_alive

/-- Servant::can_overcharge. -/
def Servant.can_overcharge (s : Servant) : Bool :=
  decide (200 ≤ s.np_gauge)

/-- Servant::overcharge_level: (np_gauge / 100).clamp(1, 5). -/
def Servant.overcharge_level (s : Servant) : Nat :=
  min 5 (max 1 (s.np_gauge / 100))

/-- Servant::damage_multiplier. -/
def Servant.damage_multiplier (s : Servant) (enemy_class : EnemyClass) : ℚ :=
  s.cls.advantage_against enemy_class

/-- Battle phase (src/game/battle.rs). -/
inductive BattlePhase where
  | PreBattle
  | CommandPhase
  | CardSelection
  | AttackPhase
  | EnemyPhase
  | Victory
  | Defeat
  | Unknown
deriving DecidableEq, Repr, Inhabited

/-- Master skills (src/game/battle.rs); cooldowns [u32; 3] is a triple. -/
structure MasterSkills where
  cooldowns : Nat × Nat × Nat
  available : Bool
deriving DecidableEq, Repr

/-- Default for MasterSkills. -/
def MasterSkills.default : MasterSkills :=
  { cooldowns := (0, 0, 0), available := true }

/-- Lookup into the fixed cooldown triple; only called under an index guard. -/
def MasterSkills.cooldown_at (m : MasterSkills) (i : Nat) : Nat :=
  match i with
  | 0 => m.cooldowns.1
  | 1 => m.cooldowns.2.1
  | 2 => m.cooldowns.2.2
  | _ => 0

/-- MasterSkills::is_ready: the bound check comes first, so the slot lookup is
never out of range. -/
def MasterSkills.is_ready (m : MasterSkills) (skill_idx : Nat) : Bool :=
  decide (skill_idx < 3) && m.cooldown_at skill_idx == 0 && m.available

/-- Complete battle state (src/game/battle.rs); np_available [bool; 3] is a
triple. -/
structure BattleState where
  phase : BattlePhase
  turn : Nat
  current_wave : EnemyWave
  servants : List Servant
  backline : List Servant
  available_cards : List Card
  selected_cards : List Card
  np_available : Bool × Bool × Bool
  target_enemy : Option Nat
  master_skills : MasterSkills
  critical_stars : Nat
  total_waves : Nat
deriving DecidableEq, Repr

/-- Default for BattleState. -/
def BattleState.default : BattleState :=
  { phase := BattlePhase.Unknown, turn := 1,
    current_wave := EnemyWave.new 1 3, servants := [], backline := [],
    available_cards := [], selected_cards := [],
    np_available := (false, false, false), target_enemy := none,
    master_skills := MasterSkills.default, critical_stars := 0,
    total_waves := 3 }

/-- Rust indexing state.np_available[i] into the fixed [bool; 3] array; none
models the index-out-of-bounds panic for i greater than 2. -/
def BattleState.np_available_get (s : BattleState) (i : Nat) : Option Bool :=
  match i with
  | 0 => some s.np_available.1
  | 1 => some s.np_available.2.1
  | 2 => some s.np_available.2.2
  | _ => none

/-- BattleState::is_final_wave. -/
def BattleState.is_final_wave (s : BattleState) : Bool :=
  s.current_wave.is_final_wave

/-- BattleState::servants_with_np. -/
def BattleState.servants_with_np (s : BattleState) : List Nat :=
  (s.servants.enum.filter (fun p => p.2.can_np)).map Prod.fst

/-- Card selection priority (src/config/settings.rs). -/
structure CardPriority where
  first_choice : CardType
  second_choice : CardType
  third_choice : CardType
  prefer_chains : Bool
  prefer_brave_chains : Bool
deriving DecidableEq, Repr

/-- Default for CardPriority. -/
def CardPriority.default : CardPriority :=
  { first_choice := CardType.Buster, second_choice := CardType.Arts,
    third_choice := CardType.Quick, prefer_chains := true,
    prefer_brave_chains := true }

/-- CardPriority::score: 3/2/1/0 by rank. -/
def CardPriority.score (p : CardPriority) (card_type : CardType) : Nat :=
  if card_type = p.first_choice then 3
  else if card_type = p.second_choice then 2
  else if card_type = p.third_choice then 1
  else 0

/-- A user skill command (src/config/settings.rs). -/
structure SkillCommand where
  servant : Nat
  skill : Nat
  target : Option Nat
  wave : Option Nat
  turn : Option Nat
deriving DecidableEq, Repr

/-- Skill usage settings (src/config/settings.rs); master_skill_order is
omitted because no decision function reads it. -/
structure SkillSettings where
  auto_use_skills : Bool
  np_charge_priority : Bool
  skill_order : Option (List SkillCommand)
  use_master_skills : Bool
deriving DecidableEq, Repr

/-- Default for SkillSettings. -/
def SkillSettings.default : SkillSettings :=
  { auto_use_skills := true, np_charge_priority := true, skill_order := none,
    use_master_skills := true }

/-- Timing settings (src/config/settings.rs); only attack_wait is read by the
decision engine. -/
structure TimingSettings where
  tap_delay : Nat
  card_delay : Nat
  skill_delay : Nat
  np_delay : Nat
  transition_wait : Nat
  attack_wait : Nat
deriving DecidableEq, Repr

/-- Default for TimingSettings. -/
def TimingSettings.default : TimingSettings :=
  { tap_delay := 300, card_delay := 200, skill_delay := 500, np_delay := 300,
    transition_wait := 2000, attack_wait := 3000 }

/-- Main settings (src/config/settings.rs); team_config and automation are
omitted because no decision function reads them. -/
structure Settings where
  card_priority : CardPriority
  np_threshold : Nat
  target_low_hp_first : Bool
  prioritize_class_advantage : Bool
  skill_settings : SkillSettings
  timings : TimingSettings
deriving DecidableEq, Repr

/-- Default for Settings. -/
def Settings.default : Settings :=
  { card_priority := CardPriority.default, np_threshold := 100,
    target_low_hp_first := true, prioritize_class_advantage := true,
    skill_settings := SkillSettings.default,
    timings := TimingSettings.default }

/-- Card selection engine weights (src/ai/card_selector.rs). -/
structure CardSelector where
  chain_weight : ℚ
  brave_chain_weight : ℚ
  class_advantage_weight : ℚ
  first_card_weight : ℚ
deriving DecidableEq, Repr

/-- CardSelector::new. -/
def CardSelector.new : CardSelector :=
  { chain_weight := 3/2, brave_chain_weight := 13/10,
    class_advantage_weight := 6/5, first_card_weight := 11/10 }

/-- Base score of a chain in CardSelector::score_chain: the sum of the
configured card-priority rank scores of the three cards. -/
def chain_base_score (chain : Chain) (settings : Settings) : F32 :=
  chain.cardList.foldl
    (fun sc c => sc.add (F32.val (settings.card_priority.score c.card_type : ℚ)))
    (F32.val 0)

/-- Chain-type bonus stage of CardSelector::score_chain. -/
def chain_type_stage (chain_weight brave_chain_weight : ℚ) (chain : Chain)
    (score : F32) : F32 :=
  match chain.chain_type with
  | ChainType.Buster => score.mul (F32.val (chain_weight * (6/5)))
  | ChainType.Arts => score.mul (F32.val (chain_weight * (11/10)))
  | ChainType.Quick => score.mul (F32.val (chain_weight * 1))
  | ChainType.Brave => score.mul (F32.val brave_chain_weight)
  | ChainType.None => score

/-- Brave-chain bonus stage of CardSelector::score_chain. -/
def brave_stage (brave_chain_weight : ℚ) (chain : Chain) (score : F32) : F32 :=
  if chain.is_brave then score.mul (F32.val brave_chain_weight) else score

/-- First-card bonus stage of CardSelector::score_chain: the match arms cover
only Buster and Arts first cards, each guarded by the configured first
choice; every other first-card type falls through unchanged. -/
def first_card_stage (first_card_weight : ℚ) (chain : Chain)
    (settings : Settings) (score : F32) : F32 :=
  match chain.cards.1.card_type with
  | CardType.Buster =>
    if settings.card_priority.first_choice = CardType.Buster then
      score.mul (F32.val first_card_weight)
    else score
  | CardType.Arts =>
    if settings.card_priority.first_choice = CardType.Arts then
      score.mul (F32.val first_card_weight)
    else score
  | _ => score

/-- Class-advantage stage of CardSelector::score_chain. -/
def class_advantage_stage (class_advantage_weight : ℚ) (chain : Chain)
    (servants : List Servant) (enemies : EnemyWave) (settings : Settings)
    (score : F32) : F32 :=
  if settings.prioritize_class_advantage then
    chain.cardList.foldl (fun sc card =>
      match servants.get? card.servant_idx with
      | some servant =>
        enemies.alive_enemies.foldl (fun sc2 enemy =>
          if servant.damage_multiplier enemy.cls > 1 then
            sc2.mul (F32.val class_advantage_weight)
          else sc2) sc
      | none => sc) score
  else score

/-- NP-decision cross-bonus stage of CardSelector::score_chain. -/
def np_decision_stage (chain : Chain) (np_decisions : List Nat)
    (score : F32) : F32 :=
  chain.cardList.foldl (fun sc card =>
    if np_decisions.contains card.servant_idx then sc.mul (F32.val (11/10))
    else sc) score

/-- CardSelector::score_chain (src/ai/card_selector.rs): the sequential
score-updating statements of the source, written as a composition of the
named stages above in source order. -/
def CardSelector.score_chain (self : CardSelector) (chain : Chain)
    (servants : List Servant) (enemies : EnemyWave) (np_decisions : List Nat)
    (settings : Settings) : F32 :=
  np_decision_stage chain np_decisions
    (class_advantage_stage self.class_advantage_weight chain servants enemies settings
      (first_card_stage self.first_card_weight chain settings
        (brave_stage self.brave_chain_weight chain
          (chain_type_stage self.chain_weight self.brave_chain_weight chain
            (chain_base_score chain settings)))))

/-- CardSelector::score_individual_card (src/ai/card_selector.rs). -/
def CardSelector.score_individual_card (self : CardSelector) (card : Card)
    (servants : List Servant) (enemies : EnemyWave) (settings : Settings) : F32 :=
  let score := F32.val (settings.card_priority.score card.card_type : ℚ)
  let score :=
    if settings.prioritize_class_advantage then
      match servants.get? card.servant_idx with
      | some servant =>
        enemies.alive_enemies.foldl (fun sc enemy =>
          let advantage := servant.damage_multiplier enemy.cls
          if advantage > 1 then sc.mul (F32.val advantage) else sc) score
      | none => score
    else score
  let score :=
    match servants.get? card.servant_idx with
    | some servant =>
      if servant.buff_count > 0 then score.mul (F32.val (6/5)) else score
    | none => score
  score

/-- CardSelector::select_best_individual_cards: score each card, stable-sort
descending (partial_cmp(..).unwrap() comparator), keep the top 3. -/
def CardSelector.select_best_individual_cards (self : CardSelector)
    (available_cards : List Card) (servants : List Servant)
    (enemies : EnemyWave) (settings : Settings) : Option (List Card) :=
  let scored_cards := available_cards.map (fun card =>
    (card, self.score_individual_card card servants enemies settings))
  match sortByCmp (fun a b => F32.partialCmp b.2 a.2) scored_cards with
  | none => none
  | some sorted => some ((sorted.take 3).map Prod.fst)

/-- CardSelector::select_cards (src/ai/card_selector.rs). -/
def CardSelector.select_cards (self : CardSelector) (available_cards : List Card)
    (servants : List Servant) (enemies : EnemyWave) (np_decisions : List Nat)
    (settings : Settings) : Option (List Card) :=
  if available_cards.isEmpty then some []
  else
    let chains := calculate_possible_chains available_cards
    if chains.isEmpty then
      self.select_best_individual_cards available_cards servants enemies settings
    else
      let best_chain := chains.foldl (fun best chain =>
        let score := self.score_chain chain servants enemies np_decisions settings
        match best with
        | none => some (chain, score)
        | some b => if F32.gt score b.2 then some (chain, score) else best)
        (none : Option (Chain × F32))
      match best_chain with
      | some (chain, _) => some chain.cardList
      | none => self.select_best_individual_cards available_cards servants enemies settings

/-- Enemy prioritization engine weights (src/ai/enemy_priority.rs). -/
structure EnemyPrioritizer where
  hp_weight : ℚ
  class_advantage_weight : ℚ
  threat_weight : ℚ
  break_bar_weight : ℚ
deriving DecidableEq, Repr

/-- EnemyPrioritizer::new. -/
def EnemyPrioritizer.new : EnemyPrioritizer :=
  { hp_weight := 1, class_advantage_weight := 6/5, threat_weight := 3/2,
    break_bar_weight := 4/5 }

/-- EnemyPrioritizer::score_enemy (src/ai/enemy_priority.rs). -/
def EnemyPrioritizer.score_enemy (self : EnemyPrioritizer) (enemy : Enemy)
    (servants : List Servant) (settings : Settings) : F32 :=
  let score := F32.val 0
  let score :=
    if settings.target_low_hp_first then
      score.add ((((F32.val 1).sub enemy.hp_percent).mul (F32.val self.hp_weight)).mul (F32.val 10))
    else
      score.add (enemy.hp_percent.mul (F32.val self.hp_weight))
  let score := score.add (F32.val
    (match enemy.threat_level with
     | ThreatLevel.Critical => 10 * self.threat_weight
     | ThreatLevel.High => 7 * self.threat_weight
     | ThreatLevel.Medium => 4 * self.threat_weight
     | ThreatLevel.Low => 1 * self.threat_weight))
  let score :=
    if settings.prioritize_class_advantage then
      let max_advantage := servants.foldl (fun m s =>
        if s.is_alive then
          let advantage := s.damage_multiplier enemy.cls
          if advantage > m then advantage else m
        else m) (1 : ℚ)
      score.mul (F32.val (max_advantage * self.class_advantage_weight))
    else score
  let score :=
    if enemy.has_break_bars then
      score.mul (F32.val (self.break_bar_weight ^ enemy.break_bars))
    else score
  let score := if enemy.is_boss then score.mul (F32.val (3/2)) else score
  let score := if enemy.has_dangerous_np then score.mul (F32.val 2) else score
  score

/-- EnemyPrioritizer::prioritize (src/ai/enemy_priority.rs): none models the
sort-comparator panic on NaN scores. -/
def EnemyPrioritizer.prioritize (self : EnemyPrioritizer) (wave : EnemyWave)
    (servants : List Servant) (settings : Settings) : Option (Option Nat) :=
  match wave.alive_enemies with
  | [] => some none
  | [e] => some (some e.position)
  | _ =>
    let scores := wave.alive_enemies.map (fun enemy =>
      (enemy.position, self.score_enemy enemy servants settings))
    match sortByCmp (fun a b => F32.partialCmp b.2 a.2) scores with
    | none => none
    | some sorted => some (sorted.head?.map Prod.fst)

/-- Skill reason (src/ai/skill_usage.rs). -/
inductive SkillReason where
  | NPCharge
  | BuffBeforeNP
  | Defensive
  | Utility
  | UserDefined
deriving DecidableEq, Repr

/-- A skill recommendation (src/ai/skill_usage.rs). -/
structure SkillRecommendation where
  servant_idx : Nat
  skill_idx : Nat
  target : Option Nat
  priority : F32
  is_master_skill : Bool
  reason : SkillReason
deriving DecidableEq, Repr

/-- Skill decision engine constants (src/ai/skill_usage.rs). -/
structure SkillDecisionEngine where
  np_charge_priority : ℚ
  damage_buff_priority : ℚ
  defensive_priority : ℚ
deriving DecidableEq, Repr

/-- SkillDecisionEngine::new. -/
def SkillDecisionEngine.new : SkillDecisionEngine :=
  { np_charge_priority := 2, damage_buff_priority := 3/2, defensive_priority := 1 }

/-- SkillDecisionEngine::get_skill_reason. -/
def SkillDecisionEngine.get_skill_reason (_self : SkillDecisionEngine)
    (is_np_charge is_damage_buff : Bool) : SkillReason :=
  if is_np_charge then SkillReason.NPCharge
  else if is_damage_buff then SkillReason.BuffBeforeNP
  else SkillReason.Utility

/-- SkillDecisionEngine::evaluate_skill: all assigned priorities are literal
constants, so the priority is computed as an exact rational. -/
def SkillDecisionEngine.evaluate_skill (self : SkillDecisionEngine)
    (servant_idx skill_idx : Nat) (servant : Servant) (state : BattleState)
    (settings : Settings) : Option SkillRecommendation :=
  let skill := servant.skills.getD skill_idx Skill.default
  let priority : ℚ := 0
  let target : Option Nat := none
  let pt :=
    if skill.is_np_charge then
      let current_np := servant.np_gauge
      let charge_amount := skill.np_charge_amount
      let priority :=
        if current_np < 100 ∧ 100 ≤ current_np + charge_amount then
          self.np_charge_priority * 3
        else if settings.skill_settings.np_charge_priority then
          self.np_charge_priority
        else priority
      let target := if skill.requires_target then some servant_idx else target
      (priority, target)
    else (priority, target)
  let priority := pt.1
  let target := pt.2
  let priority :=
    if skill.is_damage_buff then
      if state.is_final_wave || servant.can_np then
        self.damage_buff_priority * 2
      else
        self.damage_buff_priority
    else priority
  if priority > 1/2 then
    some { servant_idx := servant_idx, skill_idx := skill_idx, target := target,
           priority := F32.val priority, is_master_skill := false,
           reason := self.get_skill_reason skill.is_np_charge skill.is_damage_buff }
  else none

/-- SkillDecisionEngine::evaluate_master_skill: slot 1 returns early with the
first NP-ready servant; slots 0 and 2 go through the 0.5 threshold check. -/
def SkillDecisionEngine.evaluate_master_skill (self : SkillDecisionEngine)
    (skill_idx : Nat) (state : BattleState) : Option SkillRecommendation :=
  match skill_idx with
  | 0 =>
    let priority : ℚ :=
      if state.is_final_wave ∧ 2 ≤ state.servants_with_np.length then 2 else 0
    if priority > 1/2 then
      some { servant_idx := 0, skill_idx := skill_idx, target := none,
             priority := F32.val priority, is_master_skill := true,
             reason := SkillReason.BuffBeforeNP }
    else none
  | 1 =>
    match state.servants.findIdx? (fun s => s.can_np) with
    | some dps_idx =>
      some { servant_idx := 0, skill_idx := skill_idx, target := some dps_idx,
             priority := F32.val (3/2), is_master_skill := true,
             reason := SkillReason.BuffBeforeNP }
    | none =>
      if (0 : ℚ) > 1/2 then
        some { servant_idx := 0, skill_idx := skill_idx, target := none,
               priority := F32.val 0, is_master_skill := true,
               reason := SkillReason.BuffBeforeNP }
      else none
  | _ =>
    if (0 : ℚ) > 1/2 then
      some { servant_idx := 0, skill_idx := skill_idx, target := none,
             priority := F32.val 0, is_master_skill := true,
             reason := SkillReason.BuffBeforeNP }
    else none

/-- SkillDecisionEngine::recommend_skills (src/ai/skill_usage.rs): collect
servant-skill and master-skill recommendations, then stable-sort descending by
priority with the partial_cmp(..).unwrap() comparator. -/
def SkillDecisionEngine.recommend_skills (self : SkillDecisionEngine)
    (state : BattleState) (settings : Settings) :
    Option (List SkillRecommendation) :=
  let servant_recs := state.servants.enum.flatMap (fun p =>
    if p.2.is_alive then
      p.2.skills.enum.filterMap (fun q =>
        if q.2.is_ready then
          self.evaluate_skill p.1 q.1 p.2 state settings
        else none)
    else [])
  let master_recs :=
    if settings.skill_settings.use_master_skills then
      (List.range 3).filterMap (fun skill_idx =>
        if state.master_skills.is_ready skill_idx then
          self.evaluate_master_skill skill_idx state
        else none)
    else []
  let recommendations := servant_recs ++ master_recs
  sortByCmp (fun a b => F32.partialCmp b.priority a.priority) recommendations

/-- NP timing engine constants (src/ai/np_timing.rs). -/
structure NPTimingEngine where
  early_wave_threshold : ℚ
  aoe_multi_enemy_bonus : ℚ
deriving DecidableEq, Repr

/-- NPTimingEngine::new. -/
def NPTimingEngine.new : NPTimingEngine :=
  { early_wave_threshold := 7/10, aoe_multi_enemy_bonus := 3/2 }

/-- NPTimingEngine::score_np_usage: every contribution is a literal rational
constant, so the score is always a defined value. -/
def NPTimingEngine.score_np_usage (self : NPTimingEngine)
    (_servant_idx : Nat) (servant : Servant) (state : BattleState)
    (settings : Settings) : F32 :=
  let score : ℚ := 0
  let score := if settings.np_threshold ≤ servant.np_gauge then score + 1 else score
  let score := if state.is_final_wave then score + 2 else score
  let enemy_count := state.current_wave.alive_count
  let score := if enemy_count > 1 then score + self.aoe_multi_enemy_bonus else score
  let has_advantage := state.current_wave.alive_enemies.any (fun enemy =>
    servant.damage_multiplier enemy.cls > 1)
  let score := if has_advantage then score * (13/10) else score
  let score :=
    if servant.buff_count > 0 then score * (1 + (servant.buff_count : ℚ) * (2/10))
    else score
  let score := if servant.can_overcharge then score * (11/10) else score
  let score := if !state.is_final_wave then score * self.early_wave_threshold else score
  F32.val score

/-- NPTimingEngine::optimize_np_order: reorder kept NP users Arts, Quick,
Buster; keep the score order when not every kept index is classifiable. -/
def NPTimingEngine.optimize_np_order (_self : NPTimingEngine)
    (np_order : List Nat) (state : BattleState) : List Nat :=
  if np_order.length < 2 then np_order
  else
    let np_types := np_order.filterMap (fun idx =>
      (state.servants.get? idx).map (fun s => (idx, s.np_type)))
    let optimized := np_types.foldl (fun acc p =>
      if p.2 == NPType.Arts then acc ++ [p.1] else acc) ([] : List Nat)
    let optimized := np_types.foldl (fun acc p =>
      if p.2 == NPType.Quick && !(acc.contains p.1) then acc ++ [p.1] else acc)
      optimized
    let optimized := np_types.foldl (fun acc p =>
      if p.2 == NPType.Buster && !(acc.contains p.1) then acc ++ [p.1] else acc)
      optimized
    if optimized.length = np_order.length then optimized else np_order

/-- NPTimingEngine::decide_np_usage (src/ai/np_timing.rs): the availability
filter indexes the fixed 3-slot np_available array with the servant's
enumeration index, which panics (none) for an index beyond 2. -/
def NPTimingEngine.decide_np_usage (self : NPTimingEngine) (state : BattleState)
    (settings : Settings) : Option (List Nat) :=
  match filterPanic (fun p =>
      if p.2.can_np then state.np_available_get p.1 else some false)
      state.servants.enum with
  | none => none
  | some available_nps =>
    if available_nps.isEmpty then some []
    else
      let scored_nps := (available_nps.map (fun p =>
        (p.1, self.score_np_usage p.1 p.2 state settings))).filter
        (fun q => F32.gt q.2 (F32.val (1/2)))
      match sortByCmp (fun a b => F32.partialCmp b.2 a.2) scored_nps with
      | none => none
      | some sorted =>
        let np_users := (sorted.map Prod.fst).take 3
        some (self.optimize_np_order np_users state)

/-- The action variant set (src/lib.rs, ShebaAction). -/
inductive ShebaAction where
  | None
  | Tap (x y : Int)
  | Swipe (start_x start_y end_x end_y : Int) (duration_ms : Nat)
  | Wait (duration_ms : Nat)
  | SelectCards (card_indices : List Nat)
  | UseSkill (servant_idx skill_idx : Nat) (target : Option Nat)
  | UseNP (servant_idx : Nat)
  | TargetEnemy (enemy_idx : Nat)
  | TapAttack
  | UseMasterSkill (skill_idx : Nat) (target : Option Nat)
deriving DecidableEq, Repr

/-- Main battle AI (src/ai/mod.rs); the strategy field is omitted because
decide_action does not read it. -/
structure BattleAI where
  card_selector : CardSelector
  enemy_prioritizer : EnemyPrioritizer
  skill_engine : SkillDecisionEngine
  np_engine : NPTimingEngine
deriving DecidableEq, Repr

/-- BattleAI::new. -/
def BattleAI.new : BattleAI :=
  { card_selector := CardSelector.new,
    enemy_prioritizer := EnemyPrioritizer.new,
    skill_engine := SkillDecisionEngine.new,
    np_engine := NPTimingEngine.new }

/-- BattleAI::decide_skill_usage: the outer Option models a panic inside
recommend_skills, the inner one the Rust Option return value. -/
def BattleAI.decide_skill_usage (self : BattleAI) (state : BattleState)
    (settings : Settings) : Option (Option ShebaAction) :=
  if !settings.skill_settings.auto_use_skills then some none
  else
    match self.skill_engine.recommend_skills state settings with
    | none => none
    | some skill_recommendations =>
      some (skill_recommendations.head?.map (fun rec0 =>
        ShebaAction.UseSkill rec0.servant_idx rec0.skill_idx rec0.target))

/-- The while loop at the end of decide_card_selection, with explicit fuel so
that the recursion is structural: keep appending the lowest card slot in 0..4
not yet chosen while fewer than 3 indices are chosen and fewer than the
number of available cards.  A none result marks the (unreachable) case where
the Rust loop would not terminate. -/
def fill_card_indices_go (avail_len : Nat) : Nat → List Nat → Option (List Nat)
  | 0, acc =>
    if acc.length < 3 ∧ acc.length < avail_len then none else some acc
  | fuel + 1, acc =>
    if acc.length < 3 ∧ acc.length < avail_len then
      match (List.range 5).find? (fun i => !acc.contains i) with
      | some i => fill_card_indices_go avail_len fuel (acc ++ [i])
      | none => none
    else some acc

/-- The while loop at the end of decide_card_selection.  Each loop iteration
grows the index list by one entry and the loop only runs while the list is
shorter than 3, so 3 - acc.length iterations always suffice. -/
def fill_card_indices (avail_len : Nat) (acc : List Nat) : Option (List Nat) :=
  fill_card_indices_go avail_len (3 - acc.length) acc

/-- Card-index assembly inside BattleAI::decide_card_selection: ultimate slots
(5 + unit index, in decided order, filtered by the np_available array) first,
then positions of the selected cards while fewer than 3 indices are chosen,
then padding from the low-numbered card slots. -/
def BattleAI.assemble_card_indices (state : BattleState)
    (np_decisions : List Nat) (card_selection : List Card) : Option (List Nat) :=
  match filterPanic (fun idx => state.np_available_get idx) np_decisions with
  | none => none
  | some np_kept =>
    let card_indices := np_kept.map (fun servant_idx => 5 + servant_idx)
    let card_indices := card_selection.foldl (fun acc card =>
      if acc.length < 3 then acc ++ [card.position] else acc) card_indices
    fill_card_indices state.available_cards.length card_indices

/-- BattleAI::decide_card_selection (src/ai/mod.rs). -/
def BattleAI.decide_card_selection (self : BattleAI) (state : BattleState)
    (settings : Settings) : Option ShebaAction :=
  match self.enemy_prioritizer.prioritize state.current_wave state.servants settings with
  | none => none
  | some target_enemy =>
    match self.np_engine.decide_np_usage state settings with
    | none => none
    | some np_decisions =>
      match self.card_selector.select_cards state.available_cards state.servants
          state.current_wave np_decisions settings with
      | none => none
      | some card_selection =>
        if !card_selection.isEmpty then
          if (match target_enemy with
              | some enemy_idx => decide (state.target_enemy ≠ some enemy_idx)
              | none => false) then
            target_enemy.map ShebaAction.TargetEnemy
          else
            match BattleAI.assemble_card_indices state np_decisions card_selection with
            | none => none
            | some card_indices => some (ShebaAction.SelectCards card_indices)
        else
          some (ShebaAction.Wait 500)

/-- BattleAI::decide_action (src/ai/mod.rs): phase dispatch. -/
def BattleAI.decide_action (self : BattleAI) (state : BattleState)
    (settings : Settings) : Option ShebaAction :=
  match state.phase with
  | BattlePhase.CommandPhase =>
    match self.decide_skill_usage state settings with
    | none => none
    | some (some skill_action) => some skill_action
    | some none => some ShebaAction.TapAttack
  | BattlePhase.CardSelection => self.decide_card_selection state settings
  | BattlePhase.PreBattle => some (ShebaAction.Wait 500)
  | BattlePhase.Unknown => some (ShebaAction.Wait 500)
  | BattlePhase.AttackPhase => some (ShebaAction.Wait settings.timings.attack_wait)
  | BattlePhase.EnemyPhase => some (ShebaAction.Wait settings.timings.attack_wait)
  | BattlePhase.Victory => some ShebaAction.None
  | BattlePhase.Defeat => some ShebaAction.None

/-- Low 24 bits of an i32 coordinate after the cast to i64 and the mask with
hex FFFFFF (bridge.rs): the two's-complement residue modulo 2 to the 24. -/
def i32_low24 (x : Int) : Nat :=
  (x % (2 ^ 24)).toNat

/-- encode_action (src/android/bridge.rs): pack an action into the unsigned
64-bit pattern of the i64 transport word.  Bits 56..63 hold the action type,
bits 32..55 the X field, bits 8..31 the Y field, bits 0..7 extra data.  A
usize cast to i64 keeps the low 64 bits, hence the reductions mod 2 ^ 64.
The Swipe arm encodes only the start coordinates; end coordinates and
duration are not stored anywhere in the word. -/
def encode_action : ShebaAction → Nat
  | ShebaAction.None => 0
  | ShebaAction.Tap x y =>
    (1 <<< 56) ||| (i32_low24 x <<< 32) ||| (i32_low24 y <<< 8)
  | ShebaAction.Swipe start_x start_y _end_x _end_y _duration_ms =>
    (2 <<< 56) ||| (i32_low24 start_x <<< 32) ||| (i32_low24 start_y <<< 8)
  | ShebaAction.Wait duration_ms =>
    (3 <<< 56) ||| (duration_ms % 2 ^ 64)
  | ShebaAction.SelectCards card_indices =>
    (4 <<< 56) ||| ((card_indices.getD 0 0 <<< 16) % 2 ^ 64)
      ||| ((card_indices.getD 1 0 <<< 8) % 2 ^ 64)
      ||| (card_indices.getD 2 0 % 2 ^ 64)
  | ShebaAction.UseSkill servant_idx skill_idx target =>
    (5 <<< 56) ||| ((servant_idx <<< 16) % 2 ^ 64)
      ||| ((skill_idx <<< 8) % 2 ^ 64) ||| (target.getD 255 % 2 ^ 64)
  | ShebaAction.UseNP servant_idx =>
    (6 <<< 56) ||| (servant_idx % 2 ^ 64)
  | ShebaAction.TargetEnemy enemy_idx =>
    (7 <<< 56) ||| (enemy_idx % 2 ^ 64)
  | ShebaAction.TapAttack =>
    8 <<< 56
  | ShebaAction.UseMasterSkill skill_idx target =>
    (9 <<< 56) ||| ((skill_idx <<< 8) % 2 ^ 64) ||| (target.getD 255 % 2 ^ 64)

/-- Java_io_sheba_ShebaCore_getActionType: bits 56..63 of the word. -/
def getActionType (action_code : Nat) : Nat :=
  (action_code >>> 56) % 2 ^ 8

/-- Java_io_sheba_ShebaCore_getActionX: bits 32..55 of the word. -/
def getActionX (action_code : Nat) : Nat :=
  (action_code >>> 32) % 2 ^ 24

/-- Java_io_sheba_ShebaCore_getActionY: bits 8..31 of the word. -/
def getActionY (action_code : Nat) : Nat :=
  (action_code >>> 8) % 2 ^ 24

/-- Java_io_sheba_ShebaCore_getActionData: bits 0..7 of the word. -/
def getActionData (action_code : Nat) : Nat :=
  action_code % 2 ^ 8

/-! Generic lemmas about the modelling primitives. -/

theorem F32.mul_val_one (x : F32) : x.mul (F32.val 1) = x := by
  cases x <;> simp [F32.mul]

theorem F32.mul_mul_val_comm (x c : F32) (b : ℚ) :
    (x.mul c).mul (F32.val b) = (x.mul (F32.val b)).mul c := by
  cases x <;> cases c <;> simp [F32.mul] <;> ring_nf

theorem insertByCmp_length {α : Type} (cmp : α → α → Option Ordering) (x : α) :
    ∀ l l', insertByCmp cmp x l = some l' → l'.length = l.length + 1 := by
  intro l
  induction l with
  | nil =>
    intro l' h
    simp only [insertByCmp, Option.some.injEq] at h
    subst h
    rfl
  | cons y ys ih =>
    intro l' h
    simp only [insertByCmp] at h
    cases hc : cmp x y <;> rw [hc] at h
    · simp at h
    · rename_i o
      cases o
      case lt =>
        simp only [Option.some.injEq] at h
        subst h
        simp
      case eq =>
        simp only [Option.some.injEq] at h
        subst h
        simp
      case gt =>
        cases hrec : insertByCmp cmp x ys with
        | none => rw [hrec] at h; simp at h
        | some zs =>
          rw [hrec] at h
          have h2 : y :: zs = l' := by simpa using h
          subst h2
          simp [ih zs hrec]

theorem sortByCmp_length {α : Type} (cmp : α → α → Option Ordering) :
    ∀ l l', sortByCmp cmp l = some l' → l'.length = l.length := by
  intro l
  induction l with
  | nil =>
    intro l' h
    simp only [sortByCmp, Option.some.injEq] at h
    subst h
    rfl
  | cons x xs ih =>
    intro l' h
    simp only [sortByCmp] at h
    cases hs : sortByCmp cmp xs <;> rw [hs] at h
    · simp at h
    · rename_i ys
      have h1 := insertByCmp_length cmp x ys l' h
      simp [h1, ih ys hs]

theorem insertByCmp_mem {α : Type} (cmp : α → α → Option Ordering) (x : α) :
    ∀ l l', insertByCmp cmp x l = some l' → ∀ a, a ∈ l' ↔ a = x ∨ a ∈ l := by
  intro l
  induction l with
  | nil =>
    intro l' h a
    simp only [insertByCmp, Option.some.injEq] at h
    subst h
    simp
  | cons y ys ih =>
    intro l' h a
    simp only [insertByCmp] at h
    cases hc : cmp x y <;> rw [hc] at h
    · simp at h
    · rename_i o
      cases o
      case lt =>
        simp only [Option.some.injEq] at h
        subst h
        simp only [List.mem_cons]
      case eq =>
        simp only [Option.some.injEq] at h
        subst h
        simp only [List.mem_cons]
      case gt =>
        cases hrec : insertByCmp cmp x ys with
        | none => rw [hrec] at h; simp at h
        | some zs =>
          rw [hrec] at h
          have h2 : y :: zs = l' := by simpa using h
          subst h2
          simp only [List.mem_cons, ih zs hrec a]
          tauto

theorem sortByCmp_mem {α : Type} (cmp : α → α → Option Ordering) :
    ∀ l l', sortByCmp cmp l = some l' → ∀ a, a ∈ l' ↔ a ∈ l := by
  intro l
  induction l with
  | nil =>
    intro l' h a
    simp only [sortByCmp, Option.some.injEq] at h
    subst h
    rfl
  | cons x xs ih =>
    intro l' h a
    simp only [sortByCmp] at h
    cases hs : sortByCmp cmp xs <;> rw [hs] at h
    · simp at h
    · rename_i ys
      rw [insertByCmp_mem cmp x ys l' h a]
      simp only [List.mem_cons, ih ys hs a]

theorem filterPanic_sublist {α : Type} (p : α → Option Bool) :
    ∀ l l', filterPanic p l = some l' → l'.Sublist l := by
  intro l
  induction l with
  | nil =>
    intro l' h
    simp only [filterPanic, Option.some.injEq] at h
    subst h
    exact List.Sublist.refl []
  | cons x xs ih =>
    intro l' h
    simp only [filterPanic] at h
    cases hp : p x <;> rw [hp] at h
    · simp at h
    · rename_i b
      cases hrec : filterPanic p xs with
      | none => rw [hrec] at h; simp at h
      | some ys =>
        rw [hrec] at h
        have h2 : (if b = true then x :: ys else ys) = l' := by simpa using h
        subst h2
        cases b with
        | true => simpa using List.Sublist.cons₂ x (ih ys hrec)
        | false => simpa using List.Sublist.cons x (ih ys hrec)

theorem foldl_select_positions (cs : List Card) :
    ∀ acc : List Nat,
      cs.foldl (fun acc card =>
        if acc.length < 3 then acc ++ [card.position] else acc) acc
      = acc ++ (cs.take (3 - acc.length)).map (fun c => c.position) := by
  induction cs with
  | nil => intro acc; simp
  | cons c cs ih =>
    intro acc
    by_cases hlen : acc.length < 3
    · simp only [List.foldl_cons, if_pos hlen, ih]
      have h3 : 3 - acc.length = (3 - (acc.length + 1)) + 1 := by omega
      rw [h3]
      simp [List.take_succ_cons, List.append_assoc]
    · simp only [List.foldl_cons, if_neg hlen]
      have h0 : 3 - acc.length = 0 := by omega
      rw [ih, h0]
      simp

theorem fill_card_indices_go_append :
    ∀ fuel acc r, fill_card_indices_go n fuel acc = some r →
      ∃ pad, r = acc ++ pad ∧ ∀ x ∈ pad, x < 5 := by
  intro fuel
  induction fuel with
  | zero =>
    intro acc r h
    rw [fill_card_indices_go] at h
    by_cases hc : acc.length < 3 ∧ acc.length < n
    · rw [if_pos hc] at h
      simp at h
    · rw [if_neg hc] at h
      simp only [Option.some.injEq] at h
      exact ⟨[], by simp [h.symm]⟩
  | succ fuel ih =>
    intro acc r h
    rw [fill_card_indices_go] at h
    by_cases hc : acc.length < 3 ∧ acc.length < n
    · rw [if_pos hc] at h
      cases hf : (List.range 5).find? (fun i => !acc.contains i) with
      | none => rw [hf] at h; simp at h
      | some i =>
        rw [hf] at h
        have hi : i < 5 := by
          have := List.mem_of_find?_eq_some hf
          simpa [List.mem_range] using this
        obtain ⟨pad, hpad, hlt⟩ := ih (acc ++ [i]) r h
        refine ⟨i :: pad, ?_, ?_⟩
        · simp [hpad]
        · intro x hx
          rcases List.mem_cons.1 hx with rfl | hx
          · exact hi
          · exact hlt x hx
    · rw [if_neg hc] at h
      simp only [Option.some.injEq] at h
      exact ⟨[], by simp [h.symm]⟩

theorem fill_card_indices_append (acc r : List Nat)
    (h : fill_card_indices n acc = some r) :
    ∃ pad, r = acc ++ pad ∧ ∀ x ∈ pad, x < 5 :=
  fill_card_indices_go_append _ acc r h

theorem fill_card_indices_go_length :
    ∀ fuel acc r, acc.length ≤ 3 → 3 ≤ n →
      fill_card_indices_go n fuel acc = some r → r.length = 3 := by
  intro fuel
  induction fuel with
  | zero =>
    intro acc r hacc hn h
    rw [fill_card_indices_go] at h
    by_cases hc : acc.length < 3 ∧ acc.length < n
    · rw [if_pos hc] at h
      simp at h
    · rw [if_neg hc] at h
      simp only [Option.some.injEq] at h
      have h3 : acc.length = 3 := by omega
      rw [← h, h3]
  | succ fuel ih =>
    intro acc r hacc hn h
    rw [fill_card_indices_go] at h
    by_cases hc : acc.length < 3 ∧ acc.length < n
    · rw [if_pos hc] at h
      cases hf : (List.range 5).find? (fun i => !acc.contains i) with
      | none => rw [hf] at h; simp at h
      | some i =>
        rw [hf] at h
        exact ih (acc ++ [i]) r
          (by simp only [List.length_append, List.length_cons, List.length_nil]
              omega) hn h
    · rw [if_neg hc] at h
      simp only [Option.some.injEq] at h
      have h3 : acc.length = 3 := by omega
      rw [← h, h3]

theorem fill_card_indices_length (acc r : List Nat) (hacc : acc.length ≤ 3)
    (hn : 3 ≤ n) (h : fill_card_indices n acc = some r) : r.length = 3 :=
  fill_card_indices_go_length _ acc r hacc hn h

theorem optimize_np_order_length (self : NPTimingEngine) (l : List Nat)
    (state : BattleState) : (self.optimize_np_order l state).length = l.length := by
  rw [NPTimingEngine.optimize_np_order]
  by_cases h2 : l.length < 2
  · rw [if_pos h2]
  · rw [if_neg h2]
    simp only []
    split
    · next heq => exact heq
    · rfl

theorem decide_np_usage_length (self : NPTimingEngine) (state : BattleState)
    (settings : Settings) (l : List Nat)
    (h : self.decide_np_usage state settings = some l) : l.length ≤ 3 := by
  rw [NPTimingEngine.decide_np_usage] at h
  split at h
  · simp at h
  · split at h
    · simp only [Option.some.injEq] at h
      simp [← h]
    · dsimp only [] at h
      split at h
      · simp at h
      · simp only [Option.some.injEq] at h
        rw [← h, optimize_np_order_length]
        simp [List.length_take]

theorem or_eq_add (k a b : Nat) (ha : a % 2 ^ k = 0) (hb : b < 2 ^ k) :
    a ||| b = a + b := by
  obtain ⟨c, hc⟩ := Nat.dvd_of_mod_eq_zero ha
  subst hc
  exact (Nat.mul_add_lt_is_or hb c).symm

theorem i32_low24_lt (x : Int) : i32_low24 x < 2 ^ 24 := by
  rw [i32_low24]
  have h1 : x % (2 ^ 24 : Int) < 2 ^ 24 := Int.emod_lt_of_pos x (by norm_num)
  omega

/-! Claim C10: chain typing in the presence of NP cards. -/

/-- C10: every 3-card chain containing at least one Ultimate (NP) card gets
derived chain type None, even when the remaining non-Ultimate cards share one
type, because homogeneity classification requires exactly 3 non-NP cards; the
unity (brave) flag is still derived independently from shared ownership. -/
theorem np_chain_type_none (c0 c1 c2 : Card)
    (h : c0.card_type = CardType.NP ∨ c1.card_type = CardType.NP ∨
      c2.card_type = CardType.NP) :
    (Chain.new c0 c1 c2).chain_type = ChainType.None ∧
    (Chain.new c0 c1 c2).is_brave
      = (c1.servant_idx == c0.servant_idx && c2.servant_idx == c0.servant_idx) := by
  constructor
  · show Chain.detect_chain_type c0 c1 c2 = ChainType.None
    have hne : ([c0.card_type, c1.card_type, c2.card_type].filter
        (fun t => !(t == CardType.NP))).length ≠ 3 := by
      intro h3
      have hall := List.filter_length_eq_length.1 h3
      rcases h with h | h | h
      · have := hall c0.card_type (by simp)
        rw [h] at this
        exact absurd this (by decide)
      · have := hall c1.card_type (by simp)
        rw [h] at this
        exact absurd this (by decide)
      · have := hall c2.card_type (by simp)
        rw [h] at this
        exact absurd this (by decide)
    have hcond : (([c0.card_type, c1.card_type, c2.card_type].filter
        (fun t => !(t == CardType.NP))).length == 3) = false := by
      rw [beq_eq_false_iff_ne]
      exact hne
    simp [Chain.detect_chain_type, hcond]
  · show Chain.detect_brave_chain c0 c1 c2 = _
    simp [Chain.detect_brave_chain]

/-- Witness for C10 at a concrete chain: an NP card plus two Buster cards of
one owner yields chain type None with the brave flag still set. -/
theorem np_chain_type_none_witness :
    (Chain.new (Card.new CardType.NP 0 5) (Card.new CardType.Buster 0 1)
      (Card.new CardType.Buster 0 2)).chain_type = ChainType.None ∧
    (Chain.new (Card.new CardType.NP 0 5) (Card.new CardType.Buster 0 1)
        (Card.new CardType.Buster 0 2)).is_brave
      = ((Card.new CardType.Buster 0 1).servant_idx
            == (Card.new CardType.NP 0 5).servant_idx
          && (Card.new CardType.Buster 0 2).servant_idx
            == (Card.new CardType.NP 0 5).servant_idx) :=
  np_chain_type_none _ _ _ (Or.inl rfl)

/-! Claim C1: NaN scores crash the ranking routines. -/

/-- An enemy whose recognised HP fraction is invalid (NaN), as an untrusted
snapshot can produce. -/
def c1_enemy (pos : Nat) : Enemy :=
  { Enemy.default with hp_percent := F32.nan, position := pos }

/-- A wave with two alive NaN-HP enemies. -/
def c1_wave : EnemyWave :=
  { enemies := [c1_enemy 0, c1_enemy 1], wave_number := 1, total_waves := 3 }

/-- C1 (code bug): with two alive enemies whose scores are NaN, the enemy
prioritizer does not resolve the comparison through a total order treating
the invalid value as lowest; its sort comparator calls
partial_cmp(..).unwrap(), which panics (modelled as none), contradicting the
specification that scoring routines never abort. -/
theorem prioritize_panics_on_nan :
    EnemyPrioritizer.prioritize EnemyPrioritizer.new c1_wave [] Settings.default
      = none := by
  decide

/-! Claim C2: out-of-range unit indices crash the NP-usage filter. -/

/-- A battle state whose unit list has four entries, one more than the three
declared slots, where the fourth servant has a full NP gauge. -/
def c2_state : BattleState :=
  { BattleState.default with
    servants := [Servant.default, Servant.default, Servant.default,
      { Servant.default with np_gauge := 100 }] }

/-- C2 (code bug): decide_np_usage indexes the fixed 3-slot np_available
array with the enumeration index of each NP-ready servant, so a snapshot
with a fourth NP-ready servant triggers an out-of-bounds access (modelled as
none) instead of being silently ignored as the specification requires. -/
theorem decide_np_usage_panics_on_fourth_servant :
    NPTimingEngine.decide_np_usage NPTimingEngine.new c2_state Settings.default
      = none := by
  decide

/-! Claim C8: prioritize on empty and singleton waves. -/

/-- C8: the enemy prioritizer returns no target exactly when no enemy is
alive, and with exactly one alive enemy it returns that enemy's position
unconditionally, for every weight configuration and settings value. -/
theorem prioritize_empty_single (self : EnemyPrioritizer) (wave : EnemyWave)
    (servants : List Servant) (settings : Settings) :
    (self.prioritize wave servants settings = some none ↔
      wave.alive_enemies = []) ∧
    (∀ e, wave.alive_enemies = [e] →
      self.prioritize wave servants settings = some (some e.position)) := by
  constructor
  · constructor
    · intro h
      rw [EnemyPrioritizer.prioritize] at h
      cases halive : wave.alive_enemies with
      | nil => rfl
      | cons e1 rest =>
        exfalso
        rw [halive] at h
        cases rest with
        | nil => simp at h
        | cons e2 rest2 =>
          dsimp only at h
          cases hs : sortByCmp (fun a b => F32.partialCmp b.2 a.2)
              ((e1 :: e2 :: rest2).map (fun enemy =>
                (enemy.position, self.score_enemy enemy servants settings))) with
          | none => rw [hs] at h; simp at h
          | some sorted =>
            rw [hs] at h
            dsimp only at h
            simp only [Option.some.injEq] at h
            have hlen := sortByCmp_length _ _ _ hs
            cases sorted with
            | nil => simp at hlen
            | cons s ss => simp at h
    · intro h
      rw [EnemyPrioritizer.prioritize, h]
  · intro e he
    rw [EnemyPrioritizer.prioritize, he]

/-- A wave with a single alive enemy at position 2. -/
def c8_wave : EnemyWave :=
  { enemies := [{ Enemy.default with position := 2 }], wave_number := 1,
    total_waves := 3 }

/-- Witness for C8: on the singleton wave the prioritizer returns position 2
under the default weights and settings. -/
theorem prioritize_empty_single_witness :
    EnemyPrioritizer.prioritize EnemyPrioritizer.new c8_wave [] Settings.default
      = some (some ({ Enemy.default with position := 2 } : Enemy).position) :=
  (prioritize_empty_single EnemyPrioritizer.new c8_wave [] Settings.default).2
    { Enemy.default with position := 2 } rfl

/-! Claim C7: fewer than 3 cards means no chain scoring, fallback path. -/

/-- C7: with fewer than 3 available cards no chain is enumerated, select_cards
coincides with the fallback individual-scoring path (a stable descending sort
by score, ties kept in original order, per select_best_individual_cards), any
result has at most 3 cards, and zero available cards yield the empty list. -/
theorem select_cards_fallback (self : CardSelector) (cards : List Card)
    (servants : List Servant) (enemies : EnemyWave) (np_decisions : List Nat)
    (settings : Settings) (hlt : cards.length < 3) :
    calculate_possible_chains cards = [] ∧
    self.select_cards cards servants enemies np_decisions settings
      = self.select_best_individual_cards cards servants enemies settings ∧
    (∀ l, self.select_cards cards servants enemies np_decisions settings = some l →
      l.length ≤ 3) ∧
    (cards = [] →
      self.select_cards cards servants enemies np_decisions settings = some []) := by
  have hchains : calculate_possible_chains cards = [] := by
    rw [calculate_possible_chains]
    rw [if_pos hlt]
  have hmain : self.select_cards cards servants enemies np_decisions settings
      = self.select_best_individual_cards cards servants enemies settings := by
    rw [CardSelector.select_cards]
    by_cases hemp : cards.isEmpty
    · rw [if_pos hemp]
      have hc : cards = [] := by simpa [List.isEmpty_iff] using hemp
      subst hc
      rfl
    · rw [if_neg hemp]
      dsimp only
      rw [hchains]
      simp only [List.isEmpty_nil, if_true]
  refine ⟨hchains, hmain, ?_, ?_⟩
  · intro l hl
    rw [hmain, CardSelector.select_best_individual_cards] at hl
    cases hs : sortByCmp (fun a b => F32.partialCmp b.2 a.2)
        (cards.map (fun card =>
          (card, self.score_individual_card card servants enemies settings))) with
    | none => rw [hs] at hl; simp at hl
    | some sorted =>
      rw [hs] at hl
      dsimp only at hl
      simp only [Option.some.injEq] at hl
      rw [← hl]
      simp [List.length_take]
  · intro hc
    subst hc
    rfl

/-- A two-card hand for the C7 witness. -/
def c7_cards : List Card :=
  [Card.new CardType.Buster 0 0, Card.new CardType.Arts 0 1]

/-- Witness for C7: with a 2-card hand select_cards is the fallback path. -/
theorem select_cards_fallback_witness :
    calculate_possible_chains c7_cards = [] ∧
    CardSelector.select_cards CardSelector.new c7_cards [] (EnemyWave.new 1 3) []
        Settings.default
      = CardSelector.select_best_individual_cards CardSelector.new c7_cards []
        (EnemyWave.new 1 3) Settings.default :=
  have h := select_cards_fallback CardSelector.new c7_cards [] (EnemyWave.new 1 3)
    [] Settings.default (by decide)
  ⟨h.1, h.2.1⟩

/-! Claim C6: first-card bonus machinery. -/

theorem foldl_mul_pull {β : Type} (f : F32 → β → F32)
    (hf : ∀ (x : F32) (b : ℚ) (c : β),
      f (x.mul (F32.val b)) c = (f x c).mul (F32.val b)) :
    ∀ (l : List β) (x : F32) (b : ℚ),
      l.foldl f (x.mul (F32.val b)) = (l.foldl f x).mul (F32.val b) := by
  intro l
  induction l with
  | nil => intro x b; simp
  | cons c cs ih =>
    intro x b
    simp only [List.foldl_cons]
    rw [hf x b c]
    exact ih (f x c) b

theorem np_decision_stage_pull (chain : Chain) (nps : List Nat) (x : F32) (b : ℚ) :
    np_decision_stage chain nps (x.mul (F32.val b))
      = (np_decision_stage chain nps x).mul (F32.val b) := by
  rw [np_decision_stage, np_decision_stage]
  apply foldl_mul_pull
  intro x b card
  by_cases h : nps.contains card.servant_idx
  · simp only [if_pos h]
    exact (F32.mul_mul_val_comm x (F32.val (11/10)) b).symm
  · simp only [if_neg h]

theorem class_advantage_stage_pull (aw : ℚ) (chain : Chain)
    (servants : List Servant) (enemies : EnemyWave) (settings : Settings)
    (x : F32) (b : ℚ) :
    class_advantage_stage aw chain servants enemies settings (x.mul (F32.val b))
      = (class_advantage_stage aw chain servants enemies settings x).mul
        (F32.val b) := by
  rw [class_advantage_stage, class_advantage_stage]
  by_cases hp : settings.prioritize_class_advantage
  · simp only [if_pos hp]
    apply foldl_mul_pull
    intro x b card
    cases hser : servants.get? card.servant_idx with
    | none => rfl
    | some servant =>
      dsimp only
      apply foldl_mul_pull
      intro x b enemy
      by_cases ha : servant.damage_multiplier enemy.cls > 1
      · simp only [if_pos ha]
        exact (F32.mul_mul_val_comm x (F32.val aw) b).symm
      · simp only [if_neg ha]
  · simp only [if_neg hp]

theorem first_card_stage_eq (w : ℚ) (chain : Chain) (settings : Settings)
    (x : F32) :
    first_card_stage w chain settings x
      = x.mul (F32.val
          (if settings.card_priority.first_choice = chain.cards.1.card_type ∧
              (chain.cards.1.card_type = CardType.Buster ∨
               chain.cards.1.card_type = CardType.Arts)
            then w else 1)) := by
  rw [first_card_stage]
  cases hct : chain.cards.1.card_type
  case Buster =>
    by_cases hfc : settings.card_priority.first_choice = CardType.Buster
    · simp [hfc]
    · simp [hfc, F32.mul_val_one]
  case Arts =>
    by_cases hfc : settings.card_priority.first_choice = CardType.Arts
    · simp [hfc]
    · simp [hfc, F32.mul_val_one]
  case Quick => simp [F32.mul_val_one]
  case NP => simp [F32.mul_val_one]
  case Unknown => simp [F32.mul_val_one]

/-- C6 (amended): the chain score receives the first-card bonus multiplier
exactly when the first card's type equals the configured first choice AND
that type is Buster (Heavy) or Arts (Technical); a Quick (Fast) first choice
never receives the bonus.  Formally, the score computed with first-card
weight w is the score computed with first-card weight 1 multiplied by w
precisely under that condition. -/
theorem score_chain_first_card_bonus (cw bw aw w : ℚ) (chain : Chain)
    (servants : List Servant) (enemies : EnemyWave) (np_decisions : List Nat)
    (settings : Settings) :
    CardSelector.score_chain ⟨cw, bw, aw, w⟩ chain servants enemies np_decisions
        settings
      = (CardSelector.score_chain ⟨cw, bw, aw, 1⟩ chain servants enemies
          np_decisions settings).mul
        (F32.val (if settings.card_priority.first_choice = chain.cards.1.card_type ∧
            (chain.cards.1.card_type = CardType.Buster ∨
             chain.cards.1.card_type = CardType.Arts)
          then w else 1)) := by
  rw [CardSelector.score_chain, CardSelector.score_chain]
  dsimp only
  rw [first_card_stage_eq, first_card_stage_eq, ite_self, F32.mul_val_one,
    class_advantage_stage_pull, np_decision_stage_pull]

/-- A 3-Quick-card chain from three different owners. -/
def c6_chain : Chain :=
  Chain.new (Card.new CardType.Quick 0 0) (Card.new CardType.Quick 1 1)
    (Card.new CardType.Quick 2 2)

/-- Settings ranking Quick first. -/
def c6_settings : Settings :=
  { Settings.default with
    card_priority :=
      { CardPriority.default with
        first_choice := CardType.Quick
        second_choice := CardType.Arts
        third_choice := CardType.Buster } }

/-- Counterexample to C6 as stated: with a Quick first choice and a Quick
first card (types equal), the chain score does NOT receive the first-card
bonus multiplier: it equals the score computed with first-card weight 1,
not that score times the bonus weight. -/
theorem score_chain_no_quick_first_bonus :
    c6_settings.card_priority.first_choice = c6_chain.cards.1.card_type ∧
    CardSelector.score_chain CardSelector.new c6_chain [] (EnemyWave.new 1 3) []
        c6_settings
      ≠ (CardSelector.score_chain ⟨3/2, 13/10, 6/5, 1⟩ c6_chain []
          (EnemyWave.new 1 3) [] c6_settings).mul
        (F32.val CardSelector.new.first_card_weight) := by
  refine ⟨by decide, ?_⟩
  have hct : c6_chain.chain_type = ChainType.Quick := rfl
  have hbr : c6_chain.is_brave = false := rfl
  have hcl : c6_chain.cardList = [Card.new CardType.Quick 0 0,
    Card.new CardType.Quick 1 1, Card.new CardType.Quick 2 2] := rfl
  have hc1t : c6_chain.cards.1.card_type = CardType.Quick := rfl
  have hsc : c6_settings.card_priority.score CardType.Quick = 3 := rfl
  have hpca : c6_settings.prioritize_class_advantage = true := rfl
  have hwave : (EnemyWave.new 1 3).alive_enemies = [] := rfl
  simp only [CardSelector.score_chain, chain_base_score, chain_type_stage,
    brave_stage, first_card_stage, class_advantage_stage, np_decision_stage,
    hct, hbr, hcl, hc1t, hsc, hpca, hwave, Card.new, CardSelector.new,
    List.foldl_cons, List.foldl_nil, List.get?, List.contains, List.elem,
    F32.add, F32.mul, Bool.false_eq_true, if_false, if_true, ite_false,
    ite_true, ne_eq, F32.val.injEq]
  norm_num

/-! Claim C3: retargeting preempts card selection. -/

/-- C3: in CardSelection phase with a non-empty card selection, when the
prioritizer's computed target differs from the currently recorded target,
decide_action returns the retarget action and never a card-selection action
in the same call. -/
theorem decide_action_retarget (ai : BattleAI) (state : BattleState)
    (settings : Settings) (nps : List Nat) (cards : List Card) (t : Nat)
    (hphase : state.phase = BattlePhase.CardSelection)
    (hnp : ai.np_engine.decide_np_usage state settings = some nps)
    (hsel : ai.card_selector.select_cards state.available_cards state.servants
      state.current_wave nps settings = some cards)
    (hne : cards ≠ [])
    (htgt : ai.enemy_prioritizer.prioritize state.current_wave state.servants
      settings = some (some t))
    (hdiff : state.target_enemy ≠ some t) :
    ai.decide_action state settings = some (ShebaAction.TargetEnemy t) ∧
    ∀ l, ai.decide_action state settings ≠ some (ShebaAction.SelectCards l) := by
  have hne2 : cards.isEmpty = false := by
    cases cards with
    | nil => exact absurd rfl hne
    | cons a l => rfl
  have hmain : ai.decide_action state settings
      = some (ShebaAction.TargetEnemy t) := by
    rw [BattleAI.decide_action, hphase]
    dsimp only
    rw [BattleAI.decide_card_selection, htgt]
    dsimp only
    rw [hnp]
    dsimp only
    rw [hsel]
    dsimp only
    rw [hne2]
    rw [if_pos (decide_eq_true hdiff)]
    rfl
  refine ⟨hmain, ?_⟩
  intro l hl
  rw [hmain] at hl
  simp at hl

/-- A CardSelection-phase state with one alive enemy, one available card and
no recorded target. -/
def c3_state : BattleState :=
  { BattleState.default with
    phase := BattlePhase.CardSelection
    current_wave :=
      { enemies := [Enemy.default]
        wave_number := 1
        total_waves := 3 }
    available_cards := [Card.new CardType.Buster 0 0]
    target_enemy := none }

/-- Witness for C3: on the concrete state the orchestrator emits the retarget
action for enemy 0. -/
theorem decide_action_retarget_witness :
    BattleAI.new.decide_action c3_state Settings.default
      = some (ShebaAction.TargetEnemy 0) :=
  (decide_action_retarget BattleAI.new c3_state Settings.default []
    [Card.new CardType.Buster 0 0] 0 rfl (by decide) (by decide) (by decide)
    (by decide) (by decide)).1

/-! Claim C4: shape and length of the emitted card-index list. -/

/-- The C3 state with the target already recorded, so card selection is
assembled; only one card is available. -/
def c4_state : BattleState :=
  { c3_state with target_enemy := some 0 }

/-- Counterexample to C4 as stated: with a single available card the emitted
card-selection action has 1 entry, not exactly 3 (the padding loop stops at
the available-card count). -/
theorem decide_action_short_card_list :
    BattleAI.new.decide_action c4_state Settings.default
      = some (ShebaAction.SelectCards [0]) ∧ ([0] : List Nat).length ≠ 3 := by
  constructor
  · decide
  · decide

/-- C4 (amended): whenever decide_action emits a card-selection action, its
index list is the ultimate slots (5 + unit index, a subsequence of the
decided ultimate order) first, then positions of an initial segment of the
selected cards, then padding from the low-numbered card slots; the list has
exactly 3 entries whenever at least 3 cards are available (with fewer
available cards it can be shorter). -/
theorem select_cards_action_shape (ai : BattleAI) (state : BattleState)
    (settings : Settings) (l : List Nat)
    (hact : ai.decide_action state settings = some (ShebaAction.SelectCards l)) :
    ∃ (nps np_kept : List Nat) (sel : List Card) (k : Nat) (pad : List Nat),
      ai.np_engine.decide_np_usage state settings = some nps ∧
      ai.card_selector.select_cards state.available_cards state.servants
        state.current_wave nps settings = some sel ∧
      np_kept.Sublist nps ∧
      l = np_kept.map (fun i => 5 + i)
        ++ (sel.take k).map (fun c => c.position) ++ pad ∧
      (∀ x ∈ pad, x < 5) ∧
      (3 ≤ state.available_cards.length → l.length = 3) := by
  rw [BattleAI.decide_action] at hact
  cases hph : state.phase <;> rw [hph] at hact
  case PreBattle => simp at hact
  case Unknown => simp at hact
  case AttackPhase => simp at hact
  case EnemyPhase => simp at hact
  case Victory => simp at hact
  case Defeat => simp at hact
  case CommandPhase =>
    exfalso
    dsimp only at hact
    rw [BattleAI.decide_skill_usage] at hact
    by_cases haut : settings.skill_settings.auto_use_skills
    · rw [haut] at hact
      cases hr : ai.skill_engine.recommend_skills state settings <;>
        rw [hr] at hact
      · simp at hact
      · rename_i recs
        dsimp only at hact
        cases hh : recs.head? <;> rw [hh] at hact <;> simp at hact
    · rw [Bool.not_eq_true] at haut
      rw [haut] at hact
      simp at hact
  case CardSelection =>
    rw [BattleAI.decide_card_selection] at hact
    cases htg : ai.enemy_prioritizer.prioritize state.current_wave
        state.servants settings <;> rw [htg] at hact
    · simp at hact
    · rename_i target
      dsimp only at hact
      cases hnp : ai.np_engine.decide_np_usage state settings <;>
        rw [hnp] at hact
      · simp at hact
      · rename_i nps
        dsimp only at hact
        cases hsel : ai.card_selector.select_cards state.available_cards
            state.servants state.current_wave nps settings <;>
          rw [hsel] at hact
        · simp at hact
        · rename_i sel
          dsimp only at hact
          by_cases hemp : sel.isEmpty
          · rw [hemp] at hact
            simp at hact
          · rw [Bool.not_eq_true] at hemp
            rw [hemp] at hact
            rw [if_pos (by decide : (!false) = true)] at hact
            split at hact
            · cases target <;> simp at hact
            · cases hasm : BattleAI.assemble_card_indices state nps sel <;>
                rw [hasm] at hact
              · simp at hact
              · rename_i idxs
                have hleq : idxs = l := by simpa using hact
                subst hleq
                rw [BattleAI.assemble_card_indices] at hasm
                cases hfp : filterPanic (fun idx => state.np_available_get idx)
                    nps <;> rw [hfp] at hasm
                · simp at hasm
                · rename_i np_kept
                  dsimp only at hasm
                  rw [foldl_select_positions] at hasm
                  obtain ⟨pad, hpad, hlt5⟩ :=
                    fill_card_indices_append _ _ hasm
                  have hnps3 := decide_np_usage_length _ _ _ _ hnp
                  have hkept : np_kept.length ≤ nps.length :=
                    (filterPanic_sublist _ _ _ hfp).length_le
                  refine ⟨nps, np_kept, sel,
                    3 - (np_kept.map (fun i => 5 + i)).length, pad, rfl, hsel,
                    filterPanic_sublist _ _ _ hfp, ?_, hlt5, ?_⟩
                  · rw [hpad, List.append_assoc]
                  · intro havail
                    apply fill_card_indices_length _ _ ?_ havail hasm
                    simp only [List.length_append, List.length_map,
                      List.length_take]
                    omega

/-- Witness for C4 on the concrete single-card state: the emitted list is
the selected card's position with no padding possible. -/
theorem select_cards_action_shape_witness :
    ∃ (nps np_kept : List Nat) (sel : List Card) (k : Nat) (pad : List Nat),
      BattleAI.new.np_engine.decide_np_usage c4_state Settings.default
        = some nps ∧
      BattleAI.new.card_selector.select_cards c4_state.available_cards
        c4_state.servants c4_state.current_wave nps Settings.default
        = some sel ∧
      np_kept.Sublist nps ∧
      ([0] : List Nat) = np_kept.map (fun i => 5 + i)
        ++ (sel.take k).map (fun c => c.position) ++ pad ∧
      (∀ x ∈ pad, x < 5) ∧
      (3 ≤ c4_state.available_cards.length → ([0] : List Nat).length = 3) :=
  select_cards_action_shape BattleAI.new c4_state Settings.default [0] (by decide)

/-! Claim C9: recommendations are ready and above the 0.5 threshold. -/

theorem ite_some_none_inv {α : Type} {c : Prop} [Decidable c] {a r : α}
    (h : (if c then some a else none) = some r) : c ∧ a = r := by
  split at h
  · exact ⟨by assumption, by simpa using h⟩
  · simp at h

/-- C9: every recommendation returned by recommend_skills has a defined
priority strictly greater than 0.5, and refers to a ready skill: for a
servant skill the addressed skill slot exists and has cooldown 0, and for a
master skill the addressed slot is ready (cooldown 0 and master skills
available). -/
theorem recommend_skills_ready_and_significant (self : SkillDecisionEngine)
    (state : BattleState) (settings : Settings)
    (recs : List SkillRecommendation) (r : SkillRecommendation)
    (hrecs : self.recommend_skills state settings = some recs)
    (hr : r ∈ recs) :
    (∃ q : ℚ, r.priority = F32.val q ∧ 1/2 < q) ∧
    (r.is_master_skill = true →
      state.master_skills.is_ready r.skill_idx = true) ∧
    (r.is_master_skill = false →
      ∃ servant skill, state.servants.get? r.servant_idx = some servant ∧
        servant.skills.get? r.skill_idx = some skill ∧ skill.cooldown = 0) := by
  rw [SkillDecisionEngine.recommend_skills] at hrecs
  have hmem := (sortByCmp_mem _ _ _ hrecs r).1 hr
  rw [List.mem_append] at hmem
  rcases hmem with hmem | hmem
  · rw [List.mem_flatMap] at hmem
    obtain ⟨p, hp, hmem⟩ := hmem
    obtain ⟨si, sv⟩ := p
    by_cases halive : sv.is_alive
    · rw [if_pos halive] at hmem
      rw [List.mem_filterMap] at hmem
      obtain ⟨q, hq, hev⟩ := hmem
      obtain ⟨ki, sk⟩ := q
      by_cases hready : sk.is_ready
      · rw [if_pos hready] at hev
        rw [SkillDecisionEngine.evaluate_skill] at hev
        obtain ⟨hgt, hrec⟩ := ite_some_none_inv hev
        subst hrec
        have hsv : state.servants.get? si = some sv := by
          have := List.mk_mem_enum_iff_get?.1 hp
          simpa using this
        have hsk : sv.skills.get? ki = some sk := by
          have := List.mk_mem_enum_iff_get?.1 hq
          simpa using this
        have hcd : sk.cooldown = 0 := by
          simpa [Skill.is_ready] using hready
        refine ⟨⟨_, rfl, hgt⟩, ?_, ?_⟩
        · intro habs
          simp at habs
        · intro _
          exact ⟨sv, sk, hsv, hsk, hcd⟩
      · rw [if_neg hready] at hev
        simp at hev
    · rw [if_neg halive] at hmem
      simp at hmem
  · by_cases hms : settings.skill_settings.use_master_skills
    · rw [if_pos hms] at hmem
      rw [List.mem_filterMap] at hmem
      obtain ⟨ki, hki, hev⟩ := hmem
      by_cases hrdy : state.master_skills.is_ready ki
      · rw [if_pos hrdy] at hev
        rcases ki with _ | _ | n
        · rw [SkillDecisionEngine.evaluate_master_skill] at hev
          obtain ⟨hgt, hrec⟩ := ite_some_none_inv hev
          subst hrec
          refine ⟨⟨_, rfl, hgt⟩, ?_, ?_⟩
          · intro _
            exact hrdy
          · intro habs
            simp at habs
        · rw [SkillDecisionEngine.evaluate_master_skill] at hev
          cases hfind : state.servants.findIdx? (fun s => s.can_np) with
          | some dps_idx =>
            rw [hfind] at hev
            dsimp only at hev
            injection hev with hrr
            subst hrr
            refine ⟨⟨3/2, rfl, by norm_num⟩, ?_, ?_⟩
            · intro _
              exact hrdy
            · intro habs
              simp at habs
          | none =>
            rw [hfind] at hev
            rw [if_neg (by norm_num)] at hev
            simp at hev
        · rw [SkillDecisionEngine.evaluate_master_skill] at hev
          all_goals try omega
          rw [if_neg (by norm_num)] at hev
          simp at hev
      · rw [if_neg hrdy] at hev
        simp at hev
    · rw [if_neg hms] at hmem
      simp at hmem

/-- A skill on cooldown, so servant-skill evaluation is skipped. -/
def c9_skill : Skill :=
  { Skill.default with cooldown := 1 }

/-- A state with one NP-ready servant whose skills are all on cooldown; the
single recommendation is master skill slot 1 targeting that servant. -/
def c9_state : BattleState :=
  { BattleState.default with
    servants := [{ Servant.default with
      np_gauge := 100
      skills := [c9_skill, c9_skill, c9_skill] }] }

/-- The recommendation produced on c9_state. -/
def c9_rec : SkillRecommendation :=
  { servant_idx := 0, skill_idx := 1, target := some 0,
    priority := F32.val (3/2), is_master_skill := true,
    reason := SkillReason.BuffBeforeNP }

theorem c9_recommend_skills_eval :
    SkillDecisionEngine.recommend_skills SkillDecisionEngine.new c9_state
      Settings.default = some [c9_rec] := by
  have h0 : SkillDecisionEngine.evaluate_master_skill SkillDecisionEngine.new 0
      c9_state = none := by
    rw [SkillDecisionEngine.evaluate_master_skill]
    rw [show c9_state.is_final_wave = false from rfl]
    rw [if_neg (by norm_num)]
  have h1 : SkillDecisionEngine.evaluate_master_skill SkillDecisionEngine.new 1
      c9_state = some c9_rec := by
    rw [SkillDecisionEngine.evaluate_master_skill]
    rw [show c9_state.servants.findIdx? (fun s => s.can_np) = some 0 from rfl]
    rfl
  have h2 : SkillDecisionEngine.evaluate_master_skill SkillDecisionEngine.new 2
      c9_state = none := by
    rw [SkillDecisionEngine.evaluate_master_skill]
    all_goals try omega
    rw [if_neg (by norm_num)]
  rw [SkillDecisionEngine.recommend_skills]
  rw [show (c9_state.servants.enum.flatMap (fun p =>
      if p.2.is_alive then
        p.2.skills.enum.filterMap (fun q =>
          if q.2.is_ready then
            SkillDecisionEngine.evaluate_skill SkillDecisionEngine.new p.1 q.1
              p.2 c9_state Settings.default
          else none)
      else [])) = [] from rfl]
  rw [if_pos (show Settings.default.skill_settings.use_master_skills = true
    from rfl)]
  rw [show List.range 3 = [0, 1, 2] from rfl]
  rw [List.filterMap_cons, List.filterMap_cons, List.filterMap_cons,
    List.filterMap_nil]
  rw [if_pos (show c9_state.master_skills.is_ready 0 = true from rfl)]
  rw [if_pos (show c9_state.master_skills.is_ready 1 = true from rfl)]
  rw [if_pos (show c9_state.master_skills.is_ready 2 = true from rfl)]
  rw [h0, h1, h2]
  rfl

/-- Witness for C9: the concrete master-skill recommendation on c9_state is
ready and strictly above the 0.5 threshold. -/
theorem recommend_skills_ready_witness :
    (∃ q : ℚ, c9_rec.priority = F32.val q ∧ 1/2 < q) ∧
    (c9_rec.is_master_skill = true →
      c9_state.master_skills.is_ready c9_rec.skill_idx = true) ∧
    (c9_rec.is_master_skill = false →
      ∃ servant skill, c9_state.servants.get? c9_rec.servant_idx = some servant ∧
        servant.skills.get? c9_rec.skill_idx = some skill ∧ skill.cooldown = 0) :=
  recommend_skills_ready_and_significant SkillDecisionEngine.new c9_state
    Settings.default [c9_rec] c9_rec c9_recommend_skills_eval (by simp)

/-! Claim C5: the 64-bit action transport encoding. -/

/-- Counterexample to C5 as stated: two Swipe actions that differ in end
coordinates and duration encode to the same transport word, so no decoding
through the accessors can preserve end coordinates and duration. -/
theorem encode_action_swipe_lossy :
    encode_action (ShebaAction.Swipe 1 2 3 4 5)
      = encode_action (ShebaAction.Swipe 1 2 30 40 50) ∧
    ShebaAction.Swipe 1 2 3 4 5 ≠ ShebaAction.Swipe 1 2 30 40 50 := by
  constructor
  · rfl
  · decide

theorem encode_tap_eq (x y : Int) :
    encode_action (ShebaAction.Tap x y)
      = 2 ^ 56 + i32_low24 x * 2 ^ 32 + i32_low24 y * 2 ^ 8 := by
  have h1 := i32_low24_lt x
  have h2 := i32_low24_lt y
  rw [encode_action]
  rw [Nat.shiftLeft_eq, Nat.shiftLeft_eq, Nat.shiftLeft_eq]
  rw [or_eq_add 56 (1 * 2 ^ 56) (i32_low24 x * 2 ^ 32) (by omega) (by omega)]
  rw [or_eq_add 32 (1 * 2 ^ 56 + i32_low24 x * 2 ^ 32) (i32_low24 y * 2 ^ 8)
    (by omega) (by omega)]
  try omega

theorem encode_swipe_eq (sx sy ex ey : Int) (d : Nat) :
    encode_action (ShebaAction.Swipe sx sy ex ey d)
      = 2 * 2 ^ 56 + i32_low24 sx * 2 ^ 32 + i32_low24 sy * 2 ^ 8 := by
  have h1 := i32_low24_lt sx
  have h2 := i32_low24_lt sy
  rw [encode_action]
  rw [Nat.shiftLeft_eq, Nat.shiftLeft_eq, Nat.shiftLeft_eq]
  rw [or_eq_add 56 (2 * 2 ^ 56) (i32_low24 sx * 2 ^ 32) (by omega) (by omega)]
  rw [or_eq_add 32 (2 * 2 ^ 56 + i32_low24 sx * 2 ^ 32)
    (i32_low24 sy * 2 ^ 8) (by omega) (by omega)]
  try omega

theorem encode_wait_eq (d : Nat) (hd : d < 2 ^ 32) :
    encode_action (ShebaAction.Wait d) = 3 * 2 ^ 56 + d := by
  rw [encode_action]
  rw [Nat.shiftLeft_eq]
  rw [Nat.mod_eq_of_lt (show d < 2 ^ 64 by omega)]
  rw [or_eq_add 56 (3 * 2 ^ 56) d (by omega) (by omega)]

theorem getD_lt_of_forall_lt (cs : List Nat) (m : Nat)
    (hcs : ∀ c ∈ cs, c < m) (hm : 0 < m) (i : Nat) : cs.getD i 0 < m := by
  rw [List.getD_eq_getElem?_getD]
  cases hc : cs[i]? with
  | none => simpa using hm
  | some c =>
    have hmem : c ∈ cs := by
      have := List.getElem?_eq_some_iff.1 hc
      obtain ⟨h, rfl⟩ := this
      exact List.getElem_mem h
    simpa using hcs c hmem

theorem encode_select_eq (cs : List Nat) (hcs : ∀ c ∈ cs, c < 2 ^ 8) :
    encode_action (ShebaAction.SelectCards cs)
      = 4 * 2 ^ 56 + cs.getD 0 0 * 2 ^ 16 + cs.getD 1 0 * 2 ^ 8
        + cs.getD 2 0 := by
  have h0 := getD_lt_of_forall_lt cs (2 ^ 8) hcs (by omega) 0
  have h1 := getD_lt_of_forall_lt cs (2 ^ 8) hcs (by omega) 1
  have h2 := getD_lt_of_forall_lt cs (2 ^ 8) hcs (by omega) 2
  rw [encode_action]
  rw [Nat.shiftLeft_eq, Nat.shiftLeft_eq, Nat.shiftLeft_eq]
  rw [Nat.mod_eq_of_lt (show cs.getD 0 0 * 2 ^ 16 < 2 ^ 64 by omega),
    Nat.mod_eq_of_lt (show cs.getD 1 0 * 2 ^ 8 < 2 ^ 64 by omega),
    Nat.mod_eq_of_lt (show cs.getD 2 0 < 2 ^ 64 by omega)]
  rw [or_eq_add 56 (4 * 2 ^ 56) (cs.getD 0 0 * 2 ^ 16) (by omega) (by omega)]
  rw [or_eq_add 16 (4 * 2 ^ 56 + cs.getD 0 0 * 2 ^ 16) (cs.getD 1 0 * 2 ^ 8)
    (by omega) (by omega)]
  rw [or_eq_add 8
    (4 * 2 ^ 56 + cs.getD 0 0 * 2 ^ 16 + cs.getD 1 0 * 2 ^ 8) (cs.getD 2 0)
    (by omega) (by omega)]

theorem option_getD_lt (t : Option Nat) (ht : ∀ v, t = some v → v < 255) :
    t.getD 255 < 2 ^ 8 := by
  cases t with
  | none => simp only [Option.getD_none]; omega
  | some v =>
    have := ht v rfl
    simp only [Option.getD_some]
    omega

theorem encode_use_skill_eq (si ki : Nat) (t : Option Nat) (hsi : si < 2 ^ 8)
    (hki : ki < 2 ^ 8) (ht : ∀ v, t = some v → v < 255) :
    encode_action (ShebaAction.UseSkill si ki t)
      = 5 * 2 ^ 56 + si * 2 ^ 16 + ki * 2 ^ 8 + t.getD 255 := by
  have htv := option_getD_lt t ht
  rw [encode_action]
  rw [Nat.shiftLeft_eq, Nat.shiftLeft_eq, Nat.shiftLeft_eq]
  rw [Nat.mod_eq_of_lt (show si * 2 ^ 16 < 2 ^ 64 by omega),
    Nat.mod_eq_of_lt (show ki * 2 ^ 8 < 2 ^ 64 by omega),
    Nat.mod_eq_of_lt (show t.getD 255 < 2 ^ 64 by omega)]
  rw [or_eq_add 56 (5 * 2 ^ 56) (si * 2 ^ 16) (by omega) (by omega)]
  rw [or_eq_add 16 (5 * 2 ^ 56 + si * 2 ^ 16) (ki * 2 ^ 8) (by omega)
    (by omega)]
  rw [or_eq_add 8 (5 * 2 ^ 56 + si * 2 ^ 16 + ki * 2 ^ 8) (t.getD 255)
    (by omega) (by omega)]

theorem encode_use_np_eq (i : Nat) (hi : i < 2 ^ 8) :
    encode_action (ShebaAction.UseNP i) = 6 * 2 ^ 56 + i := by
  rw [encode_action]
  rw [Nat.shiftLeft_eq]
  rw [Nat.mod_eq_of_lt (show i < 2 ^ 64 by omega)]
  rw [or_eq_add 56 (6 * 2 ^ 56) i (by omega) (by omega)]

theorem encode_target_enemy_eq (i : Nat) (hi : i < 2 ^ 8) :
    encode_action (ShebaAction.TargetEnemy i) = 7 * 2 ^ 56 + i := by
  rw [encode_action]
  rw [Nat.shiftLeft_eq]
  rw [Nat.mod_eq_of_lt (show i < 2 ^ 64 by omega)]
  rw [or_eq_add 56 (7 * 2 ^ 56) i (by omega) (by omega)]

theorem encode_master_skill_eq (ki : Nat) (t : Option Nat) (hki : ki < 2 ^ 8)
    (ht : ∀ v, t = some v → v < 255) :
    encode_action (ShebaAction.UseMasterSkill ki t)
      = 9 * 2 ^ 56 + ki * 2 ^ 8 + t.getD 255 := by
  have htv := option_getD_lt t ht
  rw [encode_action]
  rw [Nat.shiftLeft_eq, Nat.shiftLeft_eq]
  rw [Nat.mod_eq_of_lt (show ki * 2 ^ 8 < 2 ^ 64 by omega),
    Nat.mod_eq_of_lt (show t.getD 255 < 2 ^ 64 by omega)]
  rw [or_eq_add 56 (9 * 2 ^ 56) (ki * 2 ^ 8) (by omega) (by omega)]
  rw [or_eq_add 8 (9 * 2 ^ 56 + ki * 2 ^ 8) (t.getD 255) (by omega)
    (by omega)]

/-- C5 (amended): encoding an action into the 64-bit transport word
preserves the variant tag and the populated parameters recoverable through
the type/X/Y/data accessors, with the deviations the layout forces: Swipe
keeps only its start coordinates (end coordinates and duration are not
encoded at all); coordinates must fit 24 bits, indices 8 bits and wait
durations 32 bits; at most 3 card indices are kept; and an absent skill
target is encoded as the sentinel value 255. -/
theorem encode_action_fields :
    (encode_action ShebaAction.None = 0 ∧
      getActionType (encode_action ShebaAction.None) = 0) ∧
    (∀ x y : Int, 0 ≤ x → x < 2 ^ 24 → 0 ≤ y → y < 2 ^ 24 →
      getActionType (encode_action (ShebaAction.Tap x y)) = 1 ∧
      getActionX (encode_action (ShebaAction.Tap x y)) = x.toNat ∧
      getActionY (encode_action (ShebaAction.Tap x y)) = y.toNat) ∧
    (∀ (sx sy ex ey : Int) (d : Nat), 0 ≤ sx → sx < 2 ^ 24 → 0 ≤ sy →
        sy < 2 ^ 24 →
      getActionType (encode_action (ShebaAction.Swipe sx sy ex ey d)) = 2 ∧
      getActionX (encode_action (ShebaAction.Swipe sx sy ex ey d)) = sx.toNat ∧
      getActionY (encode_action (ShebaAction.Swipe sx sy ex ey d)) = sy.toNat) ∧
    (∀ d : Nat, d < 2 ^ 32 →
      getActionType (encode_action (ShebaAction.Wait d)) = 3 ∧
      getActionY (encode_action (ShebaAction.Wait d)) * 2 ^ 8
        + getActionData (encode_action (ShebaAction.Wait d)) = d) ∧
    (∀ cs : List Nat, cs.length ≤ 3 → (∀ c ∈ cs, c < 2 ^ 8) →
      getActionType (encode_action (ShebaAction.SelectCards cs)) = 4 ∧
      getActionY (encode_action (ShebaAction.SelectCards cs))
        = cs.getD 0 0 * 2 ^ 8 + cs.getD 1 0 ∧
      getActionData (encode_action (ShebaAction.SelectCards cs))
        = cs.getD 2 0) ∧
    (∀ (si ki : Nat) (t : Option Nat), si < 2 ^ 8 → ki < 2 ^ 8 →
        (∀ v, t = some v → v < 255) →
      getActionType (encode_action (ShebaAction.UseSkill si ki t)) = 5 ∧
      getActionY (encode_action (ShebaAction.UseSkill si ki t))
        = si * 2 ^ 8 + ki ∧
      getActionData (encode_action (ShebaAction.UseSkill si ki t))
        = t.getD 255) ∧
    (∀ i : Nat, i < 2 ^ 8 →
      getActionType (encode_action (ShebaAction.UseNP i)) = 6 ∧
      getActionData (encode_action (ShebaAction.UseNP i)) = i) ∧
    (∀ i : Nat, i < 2 ^ 8 →
      getActionType (encode_action (ShebaAction.TargetEnemy i)) = 7 ∧
      getActionData (encode_action (ShebaAction.TargetEnemy i)) = i) ∧
    (getActionType (encode_action ShebaAction.TapAttack) = 8 ∧
      getActionX (encode_action ShebaAction.TapAttack) = 0 ∧
      getActionY (encode_action ShebaAction.TapAttack) = 0 ∧
      getActionData (encode_action ShebaAction.TapAttack) = 0) ∧
    (∀ (ki : Nat) (t : Option Nat), ki < 2 ^ 8 →
        (∀ v, t = some v → v < 255) →
      getActionType (encode_action (ShebaAction.UseMasterSkill ki t)) = 9 ∧
      getActionY (encode_action (ShebaAction.UseMasterSkill ki t)) = ki ∧
      getActionData (encode_action (ShebaAction.UseMasterSkill ki t))
        = t.getD 255) := by
  refine ⟨⟨rfl, rfl⟩, ?_, ?_, ?_, ?_, ?_, ?_, ?_, ?_, ?_⟩
  · intro x y hx0 hxlt hy0 hylt
    have hx : i32_low24 x = x.toNat := by
      rw [i32_low24, Int.emod_eq_of_lt hx0 hxlt]
    have hy : i32_low24 y = y.toNat := by
      rw [i32_low24, Int.emod_eq_of_lt hy0 hylt]
    have hxb : x.toNat < 2 ^ 24 := by omega
    have hyb : y.toNat < 2 ^ 24 := by omega
    refine ⟨?_, ?_, ?_⟩ <;>
      simp only [encode_tap_eq, hx, hy, getActionType, getActionX, getActionY,
        getActionData, Nat.shiftRight_eq_div_pow] <;> omega
  · intro sx sy ex ey d hx0 hxlt hy0 hylt
    have hx : i32_low24 sx = sx.toNat := by
      rw [i32_low24, Int.emod_eq_of_lt hx0 hxlt]
    have hy : i32_low24 sy = sy.toNat := by
      rw [i32_low24, Int.emod_eq_of_lt hy0 hylt]
    have hxb : sx.toNat < 2 ^ 24 := by omega
    have hyb : sy.toNat < 2 ^ 24 := by omega
    refine ⟨?_, ?_, ?_⟩ <;>
      simp only [encode_swipe_eq, hx, hy, getActionType, getActionX,
        getActionY, getActionData, Nat.shiftRight_eq_div_pow] <;> omega
  · intro d hd
    refine ⟨?_, ?_⟩ <;>
      simp only [encode_wait_eq d hd, getActionType, getActionY,
        getActionData, Nat.shiftRight_eq_div_pow] <;> omega
  · intro cs _hlen hcs
    have h0 := getD_lt_of_forall_lt cs (2 ^ 8) hcs (by omega) 0
    have h1 := getD_lt_of_forall_lt cs (2 ^ 8) hcs (by omega) 1
    have h2 := getD_lt_of_forall_lt cs (2 ^ 8) hcs (by omega) 2
    refine ⟨?_, ?_, ?_⟩ <;>
      simp only [encode_select_eq cs hcs, getActionType, getActionY,
        getActionData, Nat.shiftRight_eq_div_pow] <;> omega
  · intro si ki t hsi hki ht
    have htv := option_getD_lt t ht
    refine ⟨?_, ?_, ?_⟩ <;>
      simp only [encode_use_skill_eq si ki t hsi hki ht, getActionType,
        getActionY, getActionData, Nat.shiftRight_eq_div_pow] <;> omega
  · intro i hi
    refine ⟨?_, ?_⟩ <;>
      simp only [encode_use_np_eq i hi, getActionType, getActionData,
        Nat.shiftRight_eq_div_pow] <;> omega
  · intro i hi
    refine ⟨?_, ?_⟩ <;>
      simp only [encode_target_enemy_eq i hi, getActionType, getActionData,
        Nat.shiftRight_eq_div_pow] <;> omega
  · have h8 : encode_action ShebaAction.TapAttack = 8 * 2 ^ 56 := by
      rw [encode_action, Nat.shiftLeft_eq]
    refine ⟨?_, ?_, ?_, ?_⟩ <;>
      simp only [h8, getActionType, getActionX, getActionY, getActionData,
        Nat.shiftRight_eq_div_pow] <;> omega
  · intro ki t hki ht
    have htv := option_getD_lt t ht
    refine ⟨?_, ?_, ?_⟩ <;>
      simp only [encode_master_skill_eq ki t hki ht, getActionType,
        getActionY, getActionData, Nat.shiftRight_eq_div_pow] <;> omega

/-- Witness for C5 at a concrete Tap action. -/
theorem encode_action_fields_witness :
    getActionType (encode_action (ShebaAction.Tap 10 20)) = 1 ∧
    getActionX (encode_action (ShebaAction.Tap 10 20)) = (10 : Int).toNat ∧
    getActionY (encode_action (ShebaAction.Tap 10 20)) = (20 : Int).toNat :=
  encode_action_fields.2.1 10 20 (by norm_num) (by norm_num) (by norm_num)
    (by norm_num)
